import Mathlib

/-!
Verification of the pipeline builder of the Redshift Unload/Copy utility
(src/UnloadCopyUtility/redshift_unload_copy.py) as a shallow embedding.

The builder itself (class UnloadCopyTool, ConfigHelper) is translated from
the source file.  The collaborators that the source file imports
(util.tasks.TaskManager, util.resources.ResourceFactory, util.s3_utils) are
not part of src/; where a claim depends on their behaviour they are modelled
from the design document, and each such definition carries a doc comment
starting with `Modelled from the spec:`.
-/

namespace RedshiftUnloadCopy

/-- Kind of a warehouse resource, as derived by the resource factory from the
configuration: a table (schema name, table name), a schema, a whole database,
or something the tool does not support. -/
inductive ResourceKind where
  | tableKind (schemaName tableName : String)
  | schemaKind (schemaName : String)
  | dbKind
  | unsupportedKind
  deriving DecidableEq, Repr

/-- A warehouse resource handle.  `cluster` is the identity of the cluster
connection object the resource holds (object identity matters: the builder
deliberately creates an individual cluster instance per table). -/
structure Resource where
  cluster : Nat
  kind : ResourceKind
  explicitIds : Bool
  deriving DecidableEq, Repr

/-- Modelled from the spec: TableResource is a DBResource (class hierarchy of
util/resources.py, not in src/): isinstance(r, TableResource). -/
def Resource.isTableResource (r : Resource) : Bool :=
  match r.kind with
  | .tableKind _ _ => true
  | _ => false

/-- Modelled from the spec: isinstance(r, SchemaResource); a TableResource is
also a SchemaResource. -/
def Resource.isSchemaResource (r : Resource) : Bool :=
  match r.kind with
  | .tableKind _ _ => true
  | .schemaKind _ => true
  | _ => false

/-- Modelled from the spec: isinstance(r, DBResource); table and schema
resources are also database resources. -/
def Resource.isDBResource (r : Resource) : Bool :=
  match r.kind with
  | .tableKind _ _ => true
  | .schemaKind _ => true
  | .dbKind => true
  | .unsupportedKind => false

def Resource.set_explicit_ids (r : Resource) (b : Bool) : Resource :=
  { r with explicitIds := b }

/-- Modelled from the spec: TableResource.set_table replaces the table name. -/
def Resource.set_table (r : Resource) (t : String) : Resource :=
  match r.kind with
  | .tableKind sc _ => { r with kind := .tableKind sc t }
  | k => { r with kind := k }

def Resource.set_cluster (r : Resource) (c : Nat) : Resource :=
  { r with cluster := c }

/-- Modelled from the spec: SchemaResource.get_schema returns the schema name. -/
def Resource.get_schema (r : Resource) : String :=
  match r.kind with
  | .tableKind sc _ => sc
  | .schemaKind sc => sc
  | _ => ""

def Resource.get_cluster (r : Resource) : Nat := r.cluster

/-- The kinds of task objects the builder instantiates (util/tasks.py).  Each
carries the resource(s) it was constructed with; the S3 staging details are
identical for the three transfer tasks of a pipeline and are abstracted away. -/
inductive TaskKind where
  | noOperationTask
  | failIfResourceClusterDoesNotExists (resource : Resource)
  | failIfResourceDoesNotExists (resource : Resource)
  | createIfTargetDoesNotExist (source target : Resource)
  | unloadDataToS3 (source : Resource)
  | copyDataFromS3 (destination : Resource)
  | cleanupS3StagingArea
  deriving DecidableEq, Repr

def TaskKind.isClusterPreTest : TaskKind → Bool
  | .failIfResourceClusterDoesNotExists _ => true
  | _ => false

def TaskKind.isResourcePreTest : TaskKind → Bool
  | .failIfResourceDoesNotExists _ => true
  | _ => false

def TaskKind.isCreate : TaskKind → Bool
  | .createIfTargetDoesNotExist _ _ => true
  | _ => false

/-- Preflight or creation tasks: everything the destructive gate must wait for. -/
def TaskKind.isPrereq (k : TaskKind) : Bool :=
  k.isClusterPreTest || k.isResourcePreTest || k.isCreate

def TaskKind.isTransfer : TaskKind → Bool
  | .unloadDataToS3 _ => true
  | .copyDataFromS3 _ => true
  | .cleanupS3StagingArea => true
  | _ => false

def TaskKind.isUnload : TaskKind → Bool
  | .unloadDataToS3 _ => true
  | _ => false

def TaskKind.isNoOp : TaskKind → Bool
  | .noOperationTask => true
  | _ => false

/-- A node of the shared task graph: a unique handle and the task object. -/
structure Task where
  id : Nat
  kind : TaskKind
  deriving DecidableEq, Repr

/-- Modelled from the spec: the TaskManager / TaskGraph of util/tasks.py (not
in src/).  `edges` holds must-succeed-before pairs (predecessor, successor);
`runs` records each invocation of the executor with its thread bound. -/
structure TaskManager where
  tasks : List Task
  edges : List (Nat × Nat)
  nextId : Nat
  runs : List Nat
  deriving DecidableEq, Repr

def TaskManager.empty : TaskManager := ⟨[], [], 0, []⟩

/-- Modelled from the spec: `add(task, dependencies, dependency_of)` inserts
the task; for each handle in `dependencies` it adds the edge
dependency → task, and for each handle in `dependency_of` the edge
task → target.  Returns the updated manager and the new task's handle.
Argument order follows the Python keyword order add_task(task, dependency_of,
dependencies). -/
def TaskManager.add_task (tm : TaskManager) (kind : TaskKind)
    (dependency_of : List Nat) (dependencies : List Nat) : TaskManager × Nat :=
  (⟨tm.tasks ++ [⟨tm.nextId, kind⟩],
    tm.edges ++ dependencies.map (fun d => (d, tm.nextId))
             ++ dependency_of.map (fun d => (tm.nextId, d)),
    tm.nextId + 1,
    tm.runs⟩, tm.nextId)

/-- Modelled from the spec: TaskManager.run(max_threads) executes the whole
shared graph with a bounded worker pool; here we record the invocation and
its concurrency bound. -/
def TaskManager.run (tm : TaskManager) (max_threads : Nat) : TaskManager :=
  { tm with runs := tm.runs ++ [max_threads] }

/-- A cluster section of the configuration file (connection parameters are
opaque for the builder). -/
structure ClusterDict where
  tag : String
  deriving DecidableEq, Repr

/-- The parsed configuration: the `unloadSource` and `copyTarget` sections,
the optional `explicit_ids` key of the copy target, and the resource kinds
the resource factory derives from the two sections. -/
structure Config where
  unloadSource : ClusterDict
  copyTarget : ClusterDict
  copyTargetExplicitIds : Option Bool
  sourceKind : ResourceKind
  targetKind : ResourceKind
  deriving DecidableEq, Repr

/-- Modelled from the spec: util.s3_utils.S3Helper; `getJsonConfigAsDict`
fetches and parses a configuration object from S3 (None models a raised
exception). -/
structure S3Helper where
  region : String
  getJsonConfigAsDict : String → Option Config

/-- Python str.startswith on the underlying character lists. -/
def charsStartWith : List Char → List Char → Bool
  | _, [] => true
  | [], _ :: _ => false
  | c :: cs, p :: ps => (decide (c = p)) && charsStartWith cs ps

/-- config_path.startswith("s3://") of line 55. -/
def strStartsWith (s p : String) : Bool := charsStartWith s.data p.data

/-- Shallow embedding of ConfigHelper.__init__ (redshift_unload_copy.py lines
51-61).  The local file system together with JSON parsing is abstracted as
`readJsonFile` (None models a raised exception from open/json.load). -/
def configHelperInit (readJsonFile : String → Option Config)
    (config_path : String) (s3_helper : Option S3Helper) : Except String Config :=
  if strStartsWith config_path "s3://" then
    match s3_helper with
    | none => .error "No region set to get config file but it resides on S3"
    | some h =>
      match h.getJsonConfigAsDict config_path with
      | some c => .ok c
      | none => .error "failed to load configuration from S3"
  else
    match readJsonFile config_path with
    | some c => .ok c
    | none => .error "failed to read local configuration file as JSON"

/-- The global configuration parameters consulted by the builder. -/
structure GlobalConfigValues where
  connectionPreTest : Bool
  destinationTablePreTest : Bool
  sourceTablePreTest : Bool
  destinationTableAutoCreate : Bool
  tableName : Option String
  deriving DecidableEq, Repr

/-- Line 93: `global_config_values['tableName'] and ... != 'None'` — the
override is applied only when the value is truthy and not the string None. -/
def tableNameOverride (g : GlobalConfigValues) : Option String :=
  match g.tableName with
  | none => none
  | some s => if s = "" then none else if s = "None" then none else some s

/-- Modelled from the spec: the answers of the catalog queries performed by
the resource objects (DBResource.list_schemas, SchemaResource.list_tables of
util/resources.py, not in src/). -/
structure CatalogEnv where
  list_schemas : List String
  list_tables : String → List String

/-- Modelled from the spec: ResourceFactory.get_cluster_from_cluster_dict
creates a new cluster connection object on every call; object identity is
modelled by handing out a fresh id from a counter. -/
def getClusterFromClusterDict (dict : ClusterDict) (nextCluster : Nat) : Nat × Nat :=
  (nextCluster, nextCluster + 1)

/-- Modelled from the spec: ResourceFactory.get_source_resource_from_config_helper
builds the resource described by the `unloadSource` section, with its own
cluster connection object. -/
def getSourceResourceFromConfigHelper (cfg : Config) (nextCluster : Nat) :
    Resource × Nat :=
  let c := getClusterFromClusterDict cfg.unloadSource nextCluster
  (⟨c.1, cfg.sourceKind, false⟩, c.2)

/-- Modelled from the spec: ResourceFactory.get_target_resource_from_config_helper
builds the resource described by the `copyTarget` section, with its own
cluster connection object. -/
def getTargetResourceFromConfigHelper (cfg : Config) (nextCluster : Nat) :
    Resource × Nat :=
  let c := getClusterFromClusterDict cfg.copyTarget nextCluster
  (⟨c.1, cfg.targetKind, false⟩, c.2)

/-- Modelled from the spec:
ResourceFactory.get_table_resource_from_merging_2_resources builds a table
resource on the first resource's cluster, taking the schema/table parts from
the second. -/
def getTableResourceFromMerging2Resources (dst src : Resource) : Resource :=
  let st : String × String :=
    match src.kind with
    | .tableKind sc t => (sc, t)
    | .schemaKind sc => (sc, "")
    | _ => ("", "")
  ⟨dst.cluster, .tableKind st.1 st.2, dst.explicitIds⟩

/-- The mutable state of an UnloadCopyTool instance: the shared task manager,
the cluster-allocation counter, and the handles of the two shared barriers
(lines 82-86). -/
structure ToolState where
  tm : TaskManager
  nextCluster : Nat
  barrierCluster : Nat
  barrierResource : Nat
  deriving DecidableEq, Repr

/-- Lines 135-137: propagate the optional `explicit_ids` flag of the copy
target onto the destination resource. -/
def applyExplicitIds (cfg : Config) (destination : Resource) : Resource :=
  match cfg.copyTargetExplicitIds with
  | some b => if b then destination.set_explicit_ids true else destination
  | none => destination

/-- Lines 139-143: when connection pre-tests are on and the destination table
pre-test is off, add a cluster-reachability check for the destination, wired
as a predecessor of the cluster-pre-test barrier. -/
def stepDestinationClusterPreTest (g : GlobalConfigValues) (bc : Nat)
    (destination : Resource) (tm : TaskManager) : TaskManager :=
  if g.connectionPreTest && !g.destinationTablePreTest then
    (tm.add_task (.failIfResourceClusterDoesNotExists destination) [bc] []).1
  else tm

/-- Lines 144-147: same for the source cluster. -/
def stepSourceClusterPreTest (g : GlobalConfigValues) (bc : Nat)
    (source : Resource) (tm : TaskManager) : TaskManager :=
  if g.connectionPreTest && !g.sourceTablePreTest then
    (tm.add_task (.failIfResourceClusterDoesNotExists source) [bc] []).1
  else tm

/-- Lines 148-157: destination-table pre-test; with auto-create it degrades
to a cluster check, otherwise it is an existence check gated between the two
barriers. -/
def stepDestinationTablePreTest (g : GlobalConfigValues) (bc br : Nat)
    (destination : Resource) (tm : TaskManager) : TaskManager :=
  if g.destinationTablePreTest then
    if g.destinationTableAutoCreate then
      (tm.add_task (.failIfResourceClusterDoesNotExists destination) [bc] []).1
    else
      (tm.add_task (.failIfResourceDoesNotExists destination) [br] [bc]).1
  else tm

/-- Lines 159-163: source-table existence check, gated between the barriers. -/
def stepSourceTablePreTest (g : GlobalConfigValues) (bc br : Nat)
    (source : Resource) (tm : TaskManager) : TaskManager :=
  if g.sourceTablePreTest then
    (tm.add_task (.failIfResourceDoesNotExists source) [br] [bc]).1
  else tm

/-- Lines 165-172: optional auto-creation of the target, gated between the
barriers. -/
def stepCreateTarget (g : GlobalConfigValues) (bc br : Nat)
    (source destination : Resource) (tm : TaskManager) : TaskManager :=
  if g.destinationTableAutoCreate then
    (tm.add_task (.createIfTargetDoesNotExist source destination) [br] [bc]).1
  else tm

/-- Lines 174-182: the unconditional transfer chain — unload depends on the
resource-pre-test barrier, copy on unload, cleanup on copy. -/
def stepTransfer (br : Nat) (source destination : Resource)
    (tm : TaskManager) : TaskManager :=
  let r1 := tm.add_task (.unloadDataToS3 source) [] [br]
  let r2 := r1.1.add_task (.copyDataFromS3 destination) [] [r1.2]
  (r2.1.add_task .cleanupS3StagingArea [] [r2.2]).1

/-- Shallow embedding of UnloadCopyTool.add_table_migration (lines 134-182). -/
def UnloadCopyTool.add_table_migration (cfg : Config) (g : GlobalConfigValues)
    (st : ToolState) (source destination : Resource) : ToolState :=
  let destination := applyExplicitIds cfg destination
  let tm := st.tm
  let tm := stepDestinationClusterPreTest g st.barrierCluster destination tm
  let tm := stepSourceClusterPreTest g st.barrierCluster source tm
  let tm := stepDestinationTablePreTest g st.barrierCluster st.barrierResource destination tm
  let tm := stepSourceTablePreTest g st.barrierCluster st.barrierResource source tm
  let tm := stepCreateTarget g st.barrierCluster st.barrierResource source destination tm
  let tm := stepTransfer st.barrierResource source destination tm
  { st with tm := tm }

/-- The body of the per-table loop of add_schema_migration (lines 125-132):
an individual source cluster instance, a table resource on it, an individual
destination cluster instance, the merged target resource re-pointed at it,
then one table migration. -/
def UnloadCopyTool.schema_migration_table_step (cfg : Config)
    (g : GlobalConfigValues) (destination : Resource) (schemaName : String)
    (st : ToolState) (table : String) : ToolState :=
  let c1 := getClusterFromClusterDict cfg.unloadSource st.nextCluster
  let source_table : Resource := ⟨c1.1, .tableKind schemaName table, false⟩
  let c2 := getClusterFromClusterDict cfg.copyTarget c1.2
  let target_table :=
    (getTableResourceFromMerging2Resources destination source_table).set_cluster c2.1
  UnloadCopyTool.add_table_migration cfg g { st with nextCluster := c2.2 }
    source_table target_table

/-- Shallow embedding of UnloadCopyTool.add_schema_migration (lines 123-132). -/
def UnloadCopyTool.add_schema_migration (cfg : Config) (g : GlobalConfigValues)
    (env : CatalogEnv) (st : ToolState) (source destination : Resource) : ToolState :=
  (env.list_tables source.get_schema).foldl
    (UnloadCopyTool.schema_migration_table_step cfg g destination source.get_schema) st

/-- Shallow embedding of UnloadCopyTool.add_database_migration (lines 117-121). -/
def UnloadCopyTool.add_database_migration (cfg : Config) (g : GlobalConfigValues)
    (env : CatalogEnv) (st : ToolState) (source destination : Resource) : ToolState :=
  env.list_schemas.foldl
    (fun st schemaName =>
      let source_schema : Resource := ⟨source.get_cluster, .schemaKind schemaName, false⟩
      UnloadCopyTool.add_schema_migration cfg g env st source_schema destination)
    st

/-- The scenario dispatch of UnloadCopyTool.__init__ (lines 88-113): builds
the pipelines on the shared graph or raises NotImplementedError.  The error
payload carries the tool state at the moment of the raise. -/
def UnloadCopyTool.buildPipelines (cfg : Config) (g : GlobalConfigValues)
    (env : CatalogEnv) (st : ToolState) (source destination : Resource) :
    Except (String × ToolState) ToolState :=
  if source.isTableResource then
    if destination.isDBResource then
      let destination :=
        if destination.isTableResource then destination
        else getTableResourceFromMerging2Resources destination source
      let destination :=
        match tableNameOverride g with
        | some t => destination.set_table t
        | none => destination
      .ok (UnloadCopyTool.add_table_migration cfg g st source destination)
    else .error ("Destination should be a database resource", st)
  else if source.isSchemaResource then
    if destination.isDBResource then
      .ok (UnloadCopyTool.add_schema_migration cfg g env st source destination)
    else .error ("Destination should be a database resource", st)
  else if source.isDBResource then
    if destination.isDBResource then
      .ok (UnloadCopyTool.add_database_migration cfg g env st source destination)
    else .error ("Destination should be a database resource", st)
  else
    .error ("Source is not a Table, this type of unload-copy is currently not supported.", st)

/-- The part of UnloadCopyTool.__init__ after the configuration has been
loaded (lines 78-115): derive the source and target resources, create the
task manager and the two barrier tasks, build the pipelines, and finally run
the whole shared graph once with max_threads=4.  An error result carries the
tool state at the moment of the raise. -/
def UnloadCopyTool.initFromConfig (cfg : Config) (g : GlobalConfigValues)
    (env : CatalogEnv) : Except (String × ToolState) ToolState :=
  let src := getSourceResourceFromConfigHelper cfg 0
  let dst := getTargetResourceFromConfigHelper cfg src.2
  let r1 := TaskManager.empty.add_task .noOperationTask [] []
  let r2 := r1.1.add_task .noOperationTask [] []
  let st : ToolState := ⟨r2.1, dst.2, r1.2, r2.2⟩
  match UnloadCopyTool.buildPipelines cfg g env st src.1 dst.1 with
  | .error e => .error e
  | .ok st => .ok { st with tm := st.tm.run 4 }

/-- Shallow embedding of UnloadCopyTool.__init__ (lines 66-115): build the
S3 helper for the region (line 73), load the configuration through
ConfigHelper always passing that helper (line 76), then continue with
initFromConfig. -/
def UnloadCopyTool.init (readJsonFile : String → Option Config)
    (mkS3Helper : String → S3Helper) (env : CatalogEnv)
    (config_file : String) (region_name : String) (g : GlobalConfigValues) :
    Except (String × ToolState) ToolState :=
  match configHelperInit readJsonFile config_file (some (mkS3Helper region_name)) with
  | .error msg => .error (msg, ⟨TaskManager.empty, 0, 0, 0⟩)
  | .ok cfg => UnloadCopyTool.initFromConfig cfg g env

/-! ## Reachability in the dependency graph -/

/-- One dependency edge: a must succeed before b. -/
def EdgeStep (E : List (Nat × Nat)) (a b : Nat) : Prop := (a, b) ∈ E

instance (E : List (Nat × Nat)) (a b : Nat) : Decidable (EdgeStep E a b) :=
  inferInstanceAs (Decidable ((a, b) ∈ E))

/-- a is a (possibly transitive) predecessor of b in the edge list E. -/
def Reaches (E : List (Nat × Nat)) (a b : Nat) : Prop :=
  Relation.TransGen (EdgeStep E) a b

theorem reaches_single {E : List (Nat × Nat)} {a b : Nat} (h : (a, b) ∈ E) :
    Reaches E a b :=
  Relation.TransGen.single h

theorem reaches_tail {E : List (Nat × Nat)} {a b c : Nat}
    (h1 : Reaches E a b) (h2 : (b, c) ∈ E) : Reaches E a c :=
  Relation.TransGen.tail h1 h2

theorem reaches_trans {E : List (Nat × Nat)} {a b c : Nat}
    (h1 : Reaches E a b) (h2 : Reaches E b c) : Reaches E a c :=
  Relation.TransGen.trans h1 h2

theorem reaches_mono {E F : List (Nat × Nat)} {a b : Nat}
    (hEF : ∀ e ∈ E, e ∈ F) (h : Reaches E a b) : Reaches F a b :=
  Relation.TransGen.mono (fun x y hxy => hEF (x, y) hxy) h

/-! ## Basic facts about add_task -/

theorem add_task_tasks (tm : TaskManager) (k : TaskKind) (dOf ds : List Nat) :
    (tm.add_task k dOf ds).1.tasks = tm.tasks ++ [⟨tm.nextId, k⟩] := rfl

theorem add_task_handle (tm : TaskManager) (k : TaskKind) (dOf ds : List Nat) :
    (tm.add_task k dOf ds).2 = tm.nextId := rfl

theorem add_task_edges (tm : TaskManager) (k : TaskKind) (dOf ds : List Nat) :
    (tm.add_task k dOf ds).1.edges =
      tm.edges ++ ds.map (fun d => (d, tm.nextId))
               ++ dOf.map (fun d => (tm.nextId, d)) := rfl

theorem add_task_runs (tm : TaskManager) (k : TaskKind) (dOf ds : List Nat) :
    (tm.add_task k dOf ds).1.runs = tm.runs := rfl

theorem add_task_nextId (tm : TaskManager) (k : TaskKind) (dOf ds : List Nat) :
    (tm.add_task k dOf ds).1.nextId = tm.nextId + 1 := rfl

theorem add_task_edge_mem {tm : TaskManager} {e : Nat × Nat} (h : e ∈ tm.edges)
    (k : TaskKind) (dOf ds : List Nat) : e ∈ (tm.add_task k dOf ds).1.edges := by
  simp only [add_task_edges, List.mem_append]
  exact Or.inl (Or.inl h)

theorem add_task_edge_of_dOf {tm : TaskManager} {x : Nat} (k : TaskKind)
    {dOf : List Nat} (ds : List Nat) (hx : x ∈ dOf) :
    (tm.nextId, x) ∈ (tm.add_task k dOf ds).1.edges := by
  simp only [add_task_edges, List.mem_append, List.mem_map]
  exact Or.inr ⟨x, hx, rfl⟩

theorem add_task_edge_of_ds {tm : TaskManager} {x : Nat} (k : TaskKind)
    (dOf : List Nat) {ds : List Nat} (hx : x ∈ ds) :
    (x, tm.nextId) ∈ (tm.add_task k dOf ds).1.edges := by
  simp only [add_task_edges, List.mem_append, List.mem_map]
  exact Or.inl (Or.inr ⟨x, hx, rfl⟩)

/-! ## Extension order on task managers -/

/-- tm' is tm with further tasks appended and further edges added, the run
record untouched. -/
structure TMExtends (tm tm' : TaskManager) : Prop where
  tasksApp : ∃ δ, tm'.tasks = tm.tasks ++ δ
  edgeMem : ∀ e ∈ tm.edges, e ∈ tm'.edges
  runsEq : tm'.runs = tm.runs

theorem TMExtends.rfl (tm : TaskManager) : TMExtends tm tm :=
  ⟨⟨[], by simp⟩, fun _ h => h, by simp⟩

theorem TMExtends.trans {a b c : TaskManager} (h1 : TMExtends a b)
    (h2 : TMExtends b c) : TMExtends a c := by
  obtain ⟨⟨d1, hd1⟩, he1, hr1⟩ := h1
  obtain ⟨⟨d2, hd2⟩, he2, hr2⟩ := h2
  exact ⟨⟨d1 ++ d2, by simp [hd2, hd1]⟩, fun e he => he2 e (he1 e he), by rw [hr2, hr1]⟩

theorem tmExtends_add_task (tm : TaskManager) (k : TaskKind) (dOf ds : List Nat) :
    TMExtends tm (tm.add_task k dOf ds).1 :=
  ⟨⟨[⟨tm.nextId, k⟩], add_task_tasks tm k dOf ds⟩,
   fun e he => add_task_edge_mem he k dOf ds,
   add_task_runs tm k dOf ds⟩

theorem tmExtends_stepDCP (g : GlobalConfigValues) (bc : Nat) (d : Resource)
    (tm : TaskManager) : TMExtends tm (stepDestinationClusterPreTest g bc d tm) := by
  unfold stepDestinationClusterPreTest
  split
  · exact tmExtends_add_task ..
  · exact TMExtends.rfl tm

theorem tmExtends_stepSCP (g : GlobalConfigValues) (bc : Nat) (s : Resource)
    (tm : TaskManager) : TMExtends tm (stepSourceClusterPreTest g bc s tm) := by
  unfold stepSourceClusterPreTest
  split
  · exact tmExtends_add_task ..
  · exact TMExtends.rfl tm

theorem tmExtends_stepDTP (g : GlobalConfigValues) (bc br : Nat) (d : Resource)
    (tm : TaskManager) : TMExtends tm (stepDestinationTablePreTest g bc br d tm) := by
  unfold stepDestinationTablePreTest
  split
  · split
    · exact tmExtends_add_task ..
    · exact tmExtends_add_task ..
  · exact TMExtends.rfl tm

theorem tmExtends_stepSTP (g : GlobalConfigValues) (bc br : Nat) (s : Resource)
    (tm : TaskManager) : TMExtends tm (stepSourceTablePreTest g bc br s tm) := by
  unfold stepSourceTablePreTest
  split
  · exact tmExtends_add_task ..
  · exact TMExtends.rfl tm

theorem tmExtends_stepCT (g : GlobalConfigValues) (bc br : Nat) (s d : Resource)
    (tm : TaskManager) : TMExtends tm (stepCreateTarget g bc br s d tm) := by
  unfold stepCreateTarget
  split
  · exact tmExtends_add_task ..
  · exact TMExtends.rfl tm

theorem tmExtends_stepTransfer (br : Nat) (s d : Resource) (tm : TaskManager) :
    TMExtends tm (stepTransfer br s d tm) := by
  unfold stepTransfer
  exact ((tmExtends_add_task ..).trans (tmExtends_add_task ..)).trans (tmExtends_add_task ..)

theorem tmExtends_ATM (cfg : Config) (g : GlobalConfigValues) (st : ToolState)
    (s d : Resource) :
    TMExtends st.tm (UnloadCopyTool.add_table_migration cfg g st s d).tm := by
  unfold UnloadCopyTool.add_table_migration
  exact (((((tmExtends_stepDCP ..).trans (tmExtends_stepSCP ..)).trans
    (tmExtends_stepDTP ..)).trans (tmExtends_stepSTP ..)).trans
    (tmExtends_stepCT ..)).trans (tmExtends_stepTransfer ..)

theorem tmExtends_foldl {α : Type} {f : ToolState → α → ToolState}
    (hf : ∀ st a, TMExtends st.tm (f st a).tm) :
    ∀ (l : List α) (st : ToolState), TMExtends st.tm (l.foldl f st).tm := by
  intro l
  induction l with
  | nil => intro st; exact TMExtends.rfl _
  | cons a l ih =>
    intro st
    exact (hf st a).trans (ih (f st a))

theorem tmExtends_tableStep (cfg : Config) (g : GlobalConfigValues)
    (destination : Resource) (schemaName : String) (st : ToolState) (table : String) :
    TMExtends st.tm
      (UnloadCopyTool.schema_migration_table_step cfg g destination schemaName st table).tm := by
  unfold UnloadCopyTool.schema_migration_table_step
  exact tmExtends_ATM ..

theorem tmExtends_ASM (cfg : Config) (g : GlobalConfigValues) (env : CatalogEnv)
    (st : ToolState) (s d : Resource) :
    TMExtends st.tm (UnloadCopyTool.add_schema_migration cfg g env st s d).tm := by
  unfold UnloadCopyTool.add_schema_migration
  exact tmExtends_foldl (fun st a => tmExtends_tableStep cfg g d s.get_schema st a) _ st

theorem tmExtends_ADM (cfg : Config) (g : GlobalConfigValues) (env : CatalogEnv)
    (st : ToolState) (s d : Resource) :
    TMExtends st.tm (UnloadCopyTool.add_database_migration cfg g env st s d).tm := by
  unfold UnloadCopyTool.add_database_migration
  exact tmExtends_foldl (fun st a => tmExtends_ASM ..) _ st

/-! ## Barrier wiring invariants -/

/-- Every cluster-reachability check is a direct predecessor of the
cluster-pre-test barrier bc; every resource-existence check and every
creation task is a direct successor of bc and a direct predecessor of the
resource-pre-test barrier br. -/
def PrereqWired (bc br : Nat) (tm : TaskManager) : Prop :=
  ∀ t ∈ tm.tasks,
    (t.kind.isClusterPreTest = true → (t.id, bc) ∈ tm.edges) ∧
    (t.kind.isResourcePreTest = true → (bc, t.id) ∈ tm.edges ∧ (t.id, br) ∈ tm.edges) ∧
    (t.kind.isCreate = true → (bc, t.id) ∈ tm.edges ∧ (t.id, br) ∈ tm.edges)

theorem prereqWired_add {bc br : Nat} {tm : TaskManager} (h : PrereqWired bc br tm)
    (k : TaskKind) (dOf ds : List Nat)
    (hk1 : k.isClusterPreTest = true → bc ∈ dOf)
    (hk2 : (k.isResourcePreTest || k.isCreate) = true → bc ∈ ds ∧ br ∈ dOf) :
    PrereqWired bc br (tm.add_task k dOf ds).1 := by
  intro t ht
  rw [add_task_tasks] at ht
  rcases List.mem_append.1 ht with ht | ht
  · obtain ⟨h1, h2, h3⟩ := h t ht
    exact ⟨fun hc => add_task_edge_mem (h1 hc) k dOf ds,
      fun hc => ⟨add_task_edge_mem (h2 hc).1 k dOf ds, add_task_edge_mem (h2 hc).2 k dOf ds⟩,
      fun hc => ⟨add_task_edge_mem (h3 hc).1 k dOf ds, add_task_edge_mem (h3 hc).2 k dOf ds⟩⟩
  · simp only [List.mem_singleton] at ht
    subst ht
    refine ⟨fun hc => ?_, fun hc => ?_, fun hc => ?_⟩
    · exact add_task_edge_of_dOf k ds (hk1 hc)
    · obtain ⟨hbc, hbr⟩ := hk2 (by simp [hc])
      exact ⟨add_task_edge_of_ds k dOf hbc, add_task_edge_of_dOf k ds hbr⟩
    · obtain ⟨hbc, hbr⟩ := hk2 (by simp [hc])
      exact ⟨add_task_edge_of_ds k dOf hbc, add_task_edge_of_dOf k ds hbr⟩

theorem prereqWired_stepDCP {bc br : Nat} {tm : TaskManager}
    (g : GlobalConfigValues) (d : Resource) (h : PrereqWired bc br tm) :
    PrereqWired bc br (stepDestinationClusterPreTest g bc d tm) := by
  unfold stepDestinationClusterPreTest
  split
  · exact prereqWired_add h _ _ _ (fun _ => by simp) (fun hk => by simp [TaskKind.isResourcePreTest, TaskKind.isCreate] at hk)
  · exact h

theorem prereqWired_stepSCP {bc br : Nat} {tm : TaskManager}
    (g : GlobalConfigValues) (s : Resource) (h : PrereqWired bc br tm) :
    PrereqWired bc br (stepSourceClusterPreTest g bc s tm) := by
  unfold stepSourceClusterPreTest
  split
  · exact prereqWired_add h _ _ _ (fun _ => by simp) (fun hk => by simp [TaskKind.isResourcePreTest, TaskKind.isCreate] at hk)
  · exact h

theorem prereqWired_stepDTP {bc br : Nat} {tm : TaskManager}
    (g : GlobalConfigValues) (d : Resource) (h : PrereqWired bc br tm) :
    PrereqWired bc br (stepDestinationTablePreTest g bc br d tm) := by
  unfold stepDestinationTablePreTest
  split
  · split
    · exact prereqWired_add h _ _ _ (fun _ => by simp) (fun hk => by simp [TaskKind.isResourcePreTest, TaskKind.isCreate] at hk)
    · exact prereqWired_add h _ _ _ (fun hk => by simp [TaskKind.isClusterPreTest] at hk) (fun _ => by simp)
  · exact h

theorem prereqWired_stepSTP {bc br : Nat} {tm : TaskManager}
    (g : GlobalConfigValues) (s : Resource) (h : PrereqWired bc br tm) :
    PrereqWired bc br (stepSourceTablePreTest g bc br s tm) := by
  unfold stepSourceTablePreTest
  split
  · exact prereqWired_add h _ _ _ (fun hk => by simp [TaskKind.isClusterPreTest] at hk) (fun _ => by simp)
  · exact h

theorem prereqWired_stepCT {bc br : Nat} {tm : TaskManager}
    (g : GlobalConfigValues) (s d : Resource) (h : PrereqWired bc br tm) :
    PrereqWired bc br (stepCreateTarget g bc br s d tm) := by
  unfold stepCreateTarget
  split
  · exact prereqWired_add h _ _ _ (fun hk => by simp [TaskKind.isClusterPreTest] at hk) (fun _ => by simp)
  · exact h

theorem prereqWired_stepTransfer {bc br : Nat} {tm : TaskManager}
    (s d : Resource) (h : PrereqWired bc br tm) :
    PrereqWired bc br (stepTransfer br s d tm) := by
  unfold stepTransfer
  refine prereqWired_add (prereqWired_add (prereqWired_add h _ _ _ ?_ ?_) _ _ _ ?_ ?_) _ _ _ ?_ ?_
  all_goals intro hk
  all_goals simp [TaskKind.isClusterPreTest, TaskKind.isResourcePreTest, TaskKind.isCreate] at hk

theorem prereqWired_ATM (cfg : Config) (g : GlobalConfigValues) (st : ToolState)
    (s d : Resource) (h : PrereqWired st.barrierCluster st.barrierResource st.tm) :
    PrereqWired st.barrierCluster st.barrierResource
      (UnloadCopyTool.add_table_migration cfg g st s d).tm := by
  unfold UnloadCopyTool.add_table_migration
  exact prereqWired_stepTransfer _ _ (prereqWired_stepCT g _ _ (prereqWired_stepSTP g _
    (prereqWired_stepDTP g _ (prereqWired_stepSCP g _ (prereqWired_stepDCP g _ h)))))

/-- Every transfer task (unload/copy/cleanup) is a transitive successor of
the resource-pre-test barrier br. -/
def TransferDownstream (br : Nat) (tm : TaskManager) : Prop :=
  ∀ t ∈ tm.tasks, t.kind.isTransfer = true → Reaches tm.edges br t.id

theorem transferDownstream_add_nonTransfer {br : Nat} {tm : TaskManager}
    (h : TransferDownstream br tm) {k : TaskKind} (hk : k.isTransfer = false)
    (dOf ds : List Nat) : TransferDownstream br (tm.add_task k dOf ds).1 := by
  intro t ht htr
  rw [add_task_tasks] at ht
  rcases List.mem_append.1 ht with ht | ht
  · exact reaches_mono (fun e he => add_task_edge_mem he k dOf ds) (h t ht htr)
  · simp only [List.mem_singleton] at ht
    subst ht
    simp only at htr
    rw [hk] at htr
    exact Bool.noConfusion htr

theorem transferDownstream_stepDCP {br : Nat} {tm : TaskManager}
    (g : GlobalConfigValues) (bc : Nat) (d : Resource) (h : TransferDownstream br tm) :
    TransferDownstream br (stepDestinationClusterPreTest g bc d tm) := by
  unfold stepDestinationClusterPreTest
  split
  · refine transferDownstream_add_nonTransfer h ?_ _ _
    rfl
  · exact h

theorem transferDownstream_stepSCP {br : Nat} {tm : TaskManager}
    (g : GlobalConfigValues) (bc : Nat) (s : Resource) (h : TransferDownstream br tm) :
    TransferDownstream br (stepSourceClusterPreTest g bc s tm) := by
  unfold stepSourceClusterPreTest
  split
  · refine transferDownstream_add_nonTransfer h ?_ _ _
    rfl
  · exact h

theorem transferDownstream_stepDTP {br : Nat} {tm : TaskManager}
    (g : GlobalConfigValues) (bc : Nat) (d : Resource) (h : TransferDownstream br tm) :
    TransferDownstream br (stepDestinationTablePreTest g bc br d tm) := by
  unfold stepDestinationTablePreTest
  split
  · split
    · refine transferDownstream_add_nonTransfer h ?_ _ _
      rfl
    · refine transferDownstream_add_nonTransfer h ?_ _ _
      rfl
  · exact h

theorem transferDownstream_stepSTP {br : Nat} {tm : TaskManager}
    (g : GlobalConfigValues) (bc : Nat) (s : Resource) (h : TransferDownstream br tm) :
    TransferDownstream br (stepSourceTablePreTest g bc br s tm) := by
  unfold stepSourceTablePreTest
  split
  · refine transferDownstream_add_nonTransfer h ?_ _ _
    rfl
  · exact h

theorem transferDownstream_stepCT {br : Nat} {tm : TaskManager}
    (g : GlobalConfigValues) (bc : Nat) (s d : Resource) (h : TransferDownstream br tm) :
    TransferDownstream br (stepCreateTarget g bc br s d tm) := by
  unfold stepCreateTarget
  split
  · refine transferDownstream_add_nonTransfer h ?_ _ _
    rfl
  · exact h

theorem stepTransfer_edges (br : Nat) (s d : Resource) (tm : TaskManager) :
    (stepTransfer br s d tm).edges =
      tm.edges ++ [(br, tm.nextId), (tm.nextId, tm.nextId + 1),
        (tm.nextId + 1, tm.nextId + 2)] := by
  simp [stepTransfer, TaskManager.add_task]

theorem stepTransfer_tasks (br : Nat) (s d : Resource) (tm : TaskManager) :
    (stepTransfer br s d tm).tasks =
      tm.tasks ++ [⟨tm.nextId, .unloadDataToS3 s⟩,
        ⟨tm.nextId + 1, .copyDataFromS3 d⟩,
        ⟨tm.nextId + 2, .cleanupS3StagingArea⟩] := by
  simp [stepTransfer, TaskManager.add_task]

theorem transferDownstream_stepTransfer {br : Nat} {tm : TaskManager}
    (s d : Resource) (h : TransferDownstream br tm) :
    TransferDownstream br (stepTransfer br s d tm) := by
  intro t ht htr
  rw [stepTransfer_tasks] at ht
  rw [stepTransfer_edges]
  rcases List.mem_append.1 ht with ht | ht
  · exact reaches_mono (fun e he => List.mem_append.2 (Or.inl he)) (h t ht htr)
  · have h1 : (br, tm.nextId) ∈ tm.edges ++ [(br, tm.nextId), (tm.nextId, tm.nextId + 1), (tm.nextId + 1, tm.nextId + 2)] := by simp
    have h2 : (tm.nextId, tm.nextId + 1) ∈ tm.edges ++ [(br, tm.nextId), (tm.nextId, tm.nextId + 1), (tm.nextId + 1, tm.nextId + 2)] := by simp
    have h3 : (tm.nextId + 1, tm.nextId + 2) ∈ tm.edges ++ [(br, tm.nextId), (tm.nextId, tm.nextId + 1), (tm.nextId + 1, tm.nextId + 2)] := by simp
    simp only [List.mem_cons, List.mem_singleton, List.not_mem_nil, or_false] at ht
    rcases ht with rfl | rfl | rfl
    · exact reaches_single h1
    · exact reaches_tail (reaches_single h1) h2
    · exact reaches_tail (reaches_tail (reaches_single h1) h2) h3

theorem transferDownstream_ATM (cfg : Config) (g : GlobalConfigValues)
    (st : ToolState) (s d : Resource)
    (h : TransferDownstream st.barrierResource st.tm) :
    TransferDownstream st.barrierResource
      (UnloadCopyTool.add_table_migration cfg g st s d).tm := by
  unfold UnloadCopyTool.add_table_migration
  exact transferDownstream_stepTransfer _ _ (transferDownstream_stepCT g _ _ _
    (transferDownstream_stepSTP g _ _ (transferDownstream_stepDTP g _ _
    (transferDownstream_stepSCP g _ _ (transferDownstream_stepDCP g _ _ h)))))

/-- At least one task of the resource stage (existence pre-test or creation)
is requested, so add_table_migration adds a task bridging the two barriers. -/
def hasResourceStageTask (g : GlobalConfigValues) : Bool :=
  g.destinationTablePreTest || g.sourceTablePreTest || g.destinationTableAutoCreate

theorem stepCT_bridge {g : GlobalConfigValues} (bc br : Nat) (s d : Resource)
    (tm : TaskManager) (hac : g.destinationTableAutoCreate = true) :
    (bc, tm.nextId) ∈ (stepCreateTarget g bc br s d tm).edges ∧
    (tm.nextId, br) ∈ (stepCreateTarget g bc br s d tm).edges := by
  unfold stepCreateTarget
  rw [if_pos hac]
  exact ⟨add_task_edge_of_ds _ _ (by simp), add_task_edge_of_dOf _ _ (by simp)⟩

theorem stepSTP_bridge {g : GlobalConfigValues} (bc br : Nat) (s : Resource)
    (tm : TaskManager) (hsp : g.sourceTablePreTest = true) :
    (bc, tm.nextId) ∈ (stepSourceTablePreTest g bc br s tm).edges ∧
    (tm.nextId, br) ∈ (stepSourceTablePreTest g bc br s tm).edges := by
  unfold stepSourceTablePreTest
  rw [if_pos hsp]
  exact ⟨add_task_edge_of_ds _ _ (by simp), add_task_edge_of_dOf _ _ (by simp)⟩

theorem stepDTP_bridge {g : GlobalConfigValues} (bc br : Nat) (d : Resource)
    (tm : TaskManager) (hdp : g.destinationTablePreTest = true)
    (hac : g.destinationTableAutoCreate = false) :
    (bc, tm.nextId) ∈ (stepDestinationTablePreTest g bc br d tm).edges ∧
    (tm.nextId, br) ∈ (stepDestinationTablePreTest g bc br d tm).edges := by
  unfold stepDestinationTablePreTest
  rw [if_pos hdp, if_neg (by simp [hac])]
  exact ⟨add_task_edge_of_ds _ _ (by simp), add_task_edge_of_dOf _ _ (by simp)⟩

/-- Whenever a resource-stage task is requested, the tail of the table
migration (pre-tests onward) contains a task that is a successor of the
cluster-pre-test barrier and a predecessor of the resource-pre-test barrier. -/
theorem bridge_chain {g : GlobalConfigValues} (bc br : Nat) (s d : Resource)
    (tm : TaskManager) (hg : hasResourceStageTask g = true) :
    ∃ x, (bc, x) ∈ (stepTransfer br s d (stepCreateTarget g bc br s d
        (stepSourceTablePreTest g bc br s
          (stepDestinationTablePreTest g bc br d tm)))).edges ∧
      (x, br) ∈ (stepTransfer br s d (stepCreateTarget g bc br s d
        (stepSourceTablePreTest g bc br s
          (stepDestinationTablePreTest g bc br d tm)))).edges := by
  simp only [hasResourceStageTask, Bool.or_eq_true] at hg
  by_cases hac : g.destinationTableAutoCreate = true
  · obtain ⟨h1, h2⟩ := stepCT_bridge bc br s d
      (stepSourceTablePreTest g bc br s (stepDestinationTablePreTest g bc br d tm)) hac
    exact ⟨(stepSourceTablePreTest g bc br s (stepDestinationTablePreTest g bc br d tm)).nextId,
      (tmExtends_stepTransfer ..).edgeMem _ h1, (tmExtends_stepTransfer ..).edgeMem _ h2⟩
  · have hac' : g.destinationTableAutoCreate = false := by
      revert hac
      cases g.destinationTableAutoCreate <;> simp
    by_cases hsp : g.sourceTablePreTest = true
    · obtain ⟨h1, h2⟩ := stepSTP_bridge bc br s
        (stepDestinationTablePreTest g bc br d tm) hsp
      exact ⟨(stepDestinationTablePreTest g bc br d tm).nextId,
        (tmExtends_stepTransfer ..).edgeMem _ ((tmExtends_stepCT ..).edgeMem _ h1),
        (tmExtends_stepTransfer ..).edgeMem _ ((tmExtends_stepCT ..).edgeMem _ h2)⟩
    · have hdp : g.destinationTablePreTest = true := by
        rcases hg with (hg | hg) | hg
        · exact hg
        · exact absurd hg hsp
        · exact absurd hg hac
      obtain ⟨h1, h2⟩ := stepDTP_bridge bc br d tm hdp hac'
      exact ⟨tm.nextId,
        (tmExtends_stepTransfer ..).edgeMem _ ((tmExtends_stepCT ..).edgeMem _
          ((tmExtends_stepSTP ..).edgeMem _ h1)),
        (tmExtends_stepTransfer ..).edgeMem _ ((tmExtends_stepCT ..).edgeMem _
          ((tmExtends_stepSTP ..).edgeMem _ h2))⟩

/-- Whenever a resource-stage task is requested, the finished table migration
contains a task bridging the two barriers. -/
theorem bridge_ATM (cfg : Config) {g : GlobalConfigValues} (st : ToolState)
    (s d : Resource) (hg : hasResourceStageTask g = true) :
    ∃ x, (st.barrierCluster, x) ∈ (UnloadCopyTool.add_table_migration cfg g st s d).tm.edges ∧
      (x, st.barrierResource) ∈ (UnloadCopyTool.add_table_migration cfg g st s d).tm.edges := by
  exact bridge_chain st.barrierCluster st.barrierResource s (applyExplicitIds cfg d)
    (stepSourceClusterPreTest g st.barrierCluster s
      (stepDestinationClusterPreTest g st.barrierCluster (applyExplicitIds cfg d) st.tm)) hg

/-- Every preflight or creation task is a transitive predecessor of the
resource-pre-test barrier br. -/
def PrereqUpstream (bc br : Nat) (tm : TaskManager) : Prop :=
  ∀ t ∈ tm.tasks, t.kind.isPrereq = true → Reaches tm.edges t.id br

theorem prereqUpstream_of_wired {bc br x : Nat} {tm : TaskManager}
    (hw : PrereqWired bc br tm) (hx : (bc, x) ∈ tm.edges)
    (hxbr : (x, br) ∈ tm.edges) : PrereqUpstream bc br tm := by
  intro t ht hp
  obtain ⟨h1, h2, h3⟩ := hw t ht
  simp only [TaskKind.isPrereq, Bool.or_eq_true] at hp
  rcases hp with (hc | hc) | hc
  · exact reaches_tail (reaches_tail (reaches_single (h1 hc)) hx) hxbr
  · exact reaches_single (h2 hc).2
  · exact reaches_single (h3 hc).2

/-- The combined barrier-gate invariant carried through the whole build. -/
def GateInvariant (bc br : Nat) (tm : TaskManager) : Prop :=
  PrereqWired bc br tm ∧ TransferDownstream br tm ∧ PrereqUpstream bc br tm

theorem gateInvariant_ATM (cfg : Config) {g : GlobalConfigValues} (st : ToolState)
    (s d : Resource) (hg : hasResourceStageTask g = true)
    (h : GateInvariant st.barrierCluster st.barrierResource st.tm) :
    GateInvariant st.barrierCluster st.barrierResource
      (UnloadCopyTool.add_table_migration cfg g st s d).tm := by
  obtain ⟨hw, hd, _⟩ := h
  have hw' := prereqWired_ATM cfg g st s d hw
  obtain ⟨x, hx1, hx2⟩ := bridge_ATM cfg st s d hg
  exact ⟨hw', transferDownstream_ATM cfg g st s d hd, prereqUpstream_of_wired hw' hx1 hx2⟩

/-- Propagate an invariant of the task manager, stated at the (constant)
barrier handles, through a foldl over migration items. -/
theorem foldl_barrier_inv {α : Type} (P : Nat → Nat → TaskManager → Prop)
    {f : ToolState → α → ToolState}
    (hb : ∀ st a, (f st a).barrierCluster = st.barrierCluster)
    (hr : ∀ st a, (f st a).barrierResource = st.barrierResource)
    (hf : ∀ st a, P st.barrierCluster st.barrierResource st.tm →
      P st.barrierCluster st.barrierResource (f st a).tm) :
    ∀ (l : List α) (st : ToolState),
      P st.barrierCluster st.barrierResource st.tm →
      P st.barrierCluster st.barrierResource (l.foldl f st).tm := by
  intro l
  induction l with
  | nil => intro st h; exact h
  | cons a l ih =>
    intro st h
    have h1 : P (f st a).barrierCluster (f st a).barrierResource (f st a).tm := by
      rw [hb, hr]
      exact hf st a h
    have h2 := ih (f st a) h1
    rwa [hb, hr] at h2

theorem tableStep_barrierCluster (cfg : Config) (g : GlobalConfigValues)
    (destination : Resource) (schemaName : String) (st : ToolState) (table : String) :
    (UnloadCopyTool.schema_migration_table_step cfg g destination schemaName st table).barrierCluster
      = st.barrierCluster := rfl

theorem tableStep_barrierResource (cfg : Config) (g : GlobalConfigValues)
    (destination : Resource) (schemaName : String) (st : ToolState) (table : String) :
    (UnloadCopyTool.schema_migration_table_step cfg g destination schemaName st table).barrierResource
      = st.barrierResource := rfl

theorem gateInvariant_tableStep (cfg : Config) {g : GlobalConfigValues}
    (destination : Resource) (schemaName : String) (st : ToolState) (table : String)
    (hg : hasResourceStageTask g = true)
    (h : GateInvariant st.barrierCluster st.barrierResource st.tm) :
    GateInvariant st.barrierCluster st.barrierResource
      (UnloadCopyTool.schema_migration_table_step cfg g destination schemaName st table).tm := by
  unfold UnloadCopyTool.schema_migration_table_step
  exact gateInvariant_ATM cfg _ _ _ hg h

theorem gateInvariant_ASM (cfg : Config) {g : GlobalConfigValues} (env : CatalogEnv)
    (st : ToolState) (s d : Resource) (hg : hasResourceStageTask g = true)
    (h : GateInvariant st.barrierCluster st.barrierResource st.tm) :
    GateInvariant st.barrierCluster st.barrierResource
      (UnloadCopyTool.add_schema_migration cfg g env st s d).tm := by
  unfold UnloadCopyTool.add_schema_migration
  exact foldl_barrier_inv GateInvariant (tableStep_barrierCluster cfg g d s.get_schema)
    (tableStep_barrierResource cfg g d s.get_schema)
    (fun st a hst => gateInvariant_tableStep cfg d s.get_schema st a hg hst) _ st h

theorem ASM_barrierCluster (cfg : Config) (g : GlobalConfigValues) (env : CatalogEnv)
    (st : ToolState) (s d : Resource) :
    (UnloadCopyTool.add_schema_migration cfg g env st s d).barrierCluster
      = st.barrierCluster := by
  unfold UnloadCopyTool.add_schema_migration
  generalize env.list_tables s.get_schema = l
  induction l generalizing st with
  | nil => rfl
  | cons a l ih => exact (ih _).trans (tableStep_barrierCluster ..)

theorem ASM_barrierResource (cfg : Config) (g : GlobalConfigValues) (env : CatalogEnv)
    (st : ToolState) (s d : Resource) :
    (UnloadCopyTool.add_schema_migration cfg g env st s d).barrierResource
      = st.barrierResource := by
  unfold UnloadCopyTool.add_schema_migration
  generalize env.list_tables s.get_schema = l
  induction l generalizing st with
  | nil => rfl
  | cons a l ih => exact (ih _).trans (tableStep_barrierResource ..)

theorem gateInvariant_ADM (cfg : Config) {g : GlobalConfigValues} (env : CatalogEnv)
    (st : ToolState) (s d : Resource) (hg : hasResourceStageTask g = true)
    (h : GateInvariant st.barrierCluster st.barrierResource st.tm) :
    GateInvariant st.barrierCluster st.barrierResource
      (UnloadCopyTool.add_database_migration cfg g env st s d).tm := by
  unfold UnloadCopyTool.add_database_migration
  exact foldl_barrier_inv GateInvariant
    (fun st a => ASM_barrierCluster ..) (fun st a => ASM_barrierResource ..)
    (fun st a hst => gateInvariant_ASM cfg env st _ d hg hst) _ st h

theorem ADM_barrierCluster (cfg : Config) (g : GlobalConfigValues) (env : CatalogEnv)
    (st : ToolState) (s d : Resource) :
    (UnloadCopyTool.add_database_migration cfg g env st s d).barrierCluster
      = st.barrierCluster := by
  unfold UnloadCopyTool.add_database_migration
  generalize env.list_schemas = l
  induction l generalizing st with
  | nil => rfl
  | cons a l ih => exact (ih _).trans (ASM_barrierCluster ..)

theorem ADM_barrierResource (cfg : Config) (g : GlobalConfigValues) (env : CatalogEnv)
    (st : ToolState) (s d : Resource) :
    (UnloadCopyTool.add_database_migration cfg g env st s d).barrierResource
      = st.barrierResource := by
  unfold UnloadCopyTool.add_database_migration
  generalize env.list_schemas = l
  induction l generalizing st with
  | nil => rfl
  | cons a l ih => exact (ih _).trans (ASM_barrierResource ..)

theorem gateInvariant_buildPipelines (cfg : Config) {g : GlobalConfigValues}
    (env : CatalogEnv) {st st' : ToolState} (src dst : Resource)
    (hg : hasResourceStageTask g = true)
    (h : GateInvariant st.barrierCluster st.barrierResource st.tm)
    (hok : UnloadCopyTool.buildPipelines cfg g env st src dst = .ok st') :
    st'.barrierCluster = st.barrierCluster ∧ st'.barrierResource = st.barrierResource ∧
    GateInvariant st.barrierCluster st.barrierResource st'.tm := by
  unfold UnloadCopyTool.buildPipelines at hok
  split_ifs at hok
  all_goals simp only [Except.ok.injEq] at hok
  all_goals subst hok
  all_goals first
    | exact ⟨rfl, rfl, gateInvariant_ATM cfg st src _ hg h⟩
    | exact ⟨ASM_barrierCluster cfg g env st src dst,
        ASM_barrierResource cfg g env st src dst,
        gateInvariant_ASM cfg env st src dst hg h⟩
    | exact ⟨ADM_barrierCluster cfg g env st src dst,
        ADM_barrierResource cfg g env st src dst,
        gateInvariant_ADM cfg env st src dst hg h⟩

/-! ## Unfolding the constructor -/

theorem run_tasks (tm : TaskManager) (n : Nat) : (tm.run n).tasks = tm.tasks := rfl

theorem run_edges (tm : TaskManager) (n : Nat) : (tm.run n).edges = tm.edges := rfl

theorem run_runs (tm : TaskManager) (n : Nat) : (tm.run n).runs = tm.runs ++ [n] := rfl

/-- The tool state right after lines 73-86 of __init__: the source and target
resources have been built (cluster connection objects 0 and 1 allocated) and
the task manager holds exactly the two barrier tasks, with handles 0
(barrier_after_all_cluster_pre_tests) and 1
(barrier_after_all_resource_pre_tests). -/
def initialState : ToolState :=
  ⟨⟨[⟨0, .noOperationTask⟩, ⟨1, .noOperationTask⟩], [], 2, []⟩, 2, 0, 1⟩

theorem initFromConfig_eq (cfg : Config) (g : GlobalConfigValues) (env : CatalogEnv) :
    UnloadCopyTool.initFromConfig cfg g env =
      match UnloadCopyTool.buildPipelines cfg g env initialState
          ⟨0, cfg.sourceKind, false⟩ ⟨1, cfg.targetKind, false⟩ with
      | .error e => .error e
      | .ok st => .ok { st with tm := st.tm.run 4 } := rfl

theorem initFromConfig_ok_inv {cfg : Config} {g : GlobalConfigValues}
    {env : CatalogEnv} {st : ToolState}
    (hok : UnloadCopyTool.initFromConfig cfg g env = .ok st) :
    ∃ B, UnloadCopyTool.buildPipelines cfg g env initialState
        ⟨0, cfg.sourceKind, false⟩ ⟨1, cfg.targetKind, false⟩ = .ok B ∧
      st = { B with tm := B.tm.run 4 } := by
  rw [initFromConfig_eq] at hok
  rcases hb : UnloadCopyTool.buildPipelines cfg g env initialState
      ⟨0, cfg.sourceKind, false⟩ ⟨1, cfg.targetKind, false⟩ with e | B
  · rw [hb] at hok
    exact absurd hok (by simp)
  · rw [hb] at hok
    simp only [Except.ok.injEq] at hok
    exact ⟨B, rfl, hok.symm⟩

theorem initFromConfig_error_inv {cfg : Config} {g : GlobalConfigValues}
    {env : CatalogEnv} {e : String × ToolState}
    (he : UnloadCopyTool.initFromConfig cfg g env = .error e) :
    UnloadCopyTool.buildPipelines cfg g env initialState
        ⟨0, cfg.sourceKind, false⟩ ⟨1, cfg.targetKind, false⟩ = .error e := by
  rw [initFromConfig_eq] at he
  rcases hb : UnloadCopyTool.buildPipelines cfg g env initialState
      ⟨0, cfg.sourceKind, false⟩ ⟨1, cfg.targetKind, false⟩ with e' | B
  · rw [hb] at he
    simp only [Except.error.injEq] at he
    rw [he]
  · rw [hb] at he
    exact absurd he (by simp)

theorem init_ok_inv {rd : String → Option Config} {mk : String → S3Helper}
    {env : CatalogEnv} {file reg : String} {g : GlobalConfigValues} {st : ToolState}
    (hok : UnloadCopyTool.init rd mk env file reg g = .ok st) :
    ∃ cfg B, configHelperInit rd file (some (mk reg)) = .ok cfg ∧
      UnloadCopyTool.buildPipelines cfg g env initialState
        ⟨0, cfg.sourceKind, false⟩ ⟨1, cfg.targetKind, false⟩ = .ok B ∧
      st = { B with tm := B.tm.run 4 } := by
  unfold UnloadCopyTool.init at hok
  rcases hc : configHelperInit rd file (some (mk reg)) with msg | cfg
  · rw [hc] at hok
    exact absurd hok (by simp)
  · rw [hc] at hok
    obtain ⟨B, hb, hst⟩ := initFromConfig_ok_inv hok
    exact ⟨cfg, B, rfl, hb, hst⟩

theorem init_error_inv {rd : String → Option Config} {mk : String → S3Helper}
    {env : CatalogEnv} {file reg : String} {g : GlobalConfigValues}
    {e : String × ToolState}
    (he : UnloadCopyTool.init rd mk env file reg g = .error e) :
    (∃ msg, configHelperInit rd file (some (mk reg)) = .error msg ∧
      e = (msg, ⟨TaskManager.empty, 0, 0, 0⟩)) ∨
    (∃ cfg, configHelperInit rd file (some (mk reg)) = .ok cfg ∧
      UnloadCopyTool.buildPipelines cfg g env initialState
        ⟨0, cfg.sourceKind, false⟩ ⟨1, cfg.targetKind, false⟩ = .error e) := by
  unfold UnloadCopyTool.init at he
  rcases hc : configHelperInit rd file (some (mk reg)) with msg | cfg
  · rw [hc] at he
    simp only [Except.error.injEq] at he
    exact Or.inl ⟨msg, rfl, he.symm⟩
  · rw [hc] at he
    exact Or.inr ⟨cfg, rfl, initFromConfig_error_inv he⟩

/-- A NotImplementedError raised by the scenario dispatch carries the tool
state the builder had when it was raised: the one it was given. -/
theorem buildPipelines_error {cfg : Config} {g : GlobalConfigValues}
    {env : CatalogEnv} {st : ToolState} {src dst : Resource} {e : String × ToolState}
    (he : UnloadCopyTool.buildPipelines cfg g env st src dst = .error e) :
    e.2 = st := by
  unfold UnloadCopyTool.buildPipelines at he
  split_ifs at he
  all_goals simp only [Except.error.injEq] at he
  all_goals subst he
  all_goals rfl

theorem gateInvariant_initialState : GateInvariant 0 1 initialState.tm := by
  refine ⟨?_, ?_, ?_⟩
  · intro t ht
    fin_cases ht <;> exact ⟨fun h => by simp [TaskKind.isClusterPreTest] at h,
      fun h => by simp [TaskKind.isResourcePreTest] at h,
      fun h => by simp [TaskKind.isCreate] at h⟩
  · intro t ht htr
    fin_cases ht <;> simp [TaskKind.isTransfer] at htr
  · intro t ht hp
    fin_cases ht <;> simp [TaskKind.isPrereq, TaskKind.isClusterPreTest,
      TaskKind.isResourcePreTest, TaskKind.isCreate] at hp

/-! ## Counting tasks -/

/-- Number of unload tasks in the graph: one per table pipeline. -/
def countUnload (tm : TaskManager) : Nat :=
  tm.tasks.countP (fun t => t.kind.isUnload)

/-- Number of creation tasks in the graph. -/
def countCreate (tm : TaskManager) : Nat :=
  tm.tasks.countP (fun t => t.kind.isCreate)

/-- Number of no-operation (barrier) tasks in the graph. -/
def countNoOp (tm : TaskManager) : Nat :=
  tm.tasks.countP (fun t => t.kind.isNoOp)

theorem countP_add_task (tm : TaskManager) (k : TaskKind) (dOf ds : List Nat)
    (p : Task → Bool) :
    ((tm.add_task k dOf ds).1.tasks).countP p
      = tm.tasks.countP p + (if p ⟨tm.nextId, k⟩ then 1 else 0) := by
  rw [add_task_tasks, List.countP_append]
  simp [List.countP_cons]

theorem countP_stepDCP (g : GlobalConfigValues) (bc : Nat) (d : Resource)
    (tm : TaskManager) (p : Task → Bool)
    (hp : ∀ i r, p ⟨i, .failIfResourceClusterDoesNotExists r⟩ = false) :
    ((stepDestinationClusterPreTest g bc d tm).tasks).countP p = tm.tasks.countP p := by
  unfold stepDestinationClusterPreTest
  split
  · rw [countP_add_task]
    simp [hp]
  · rfl

theorem countP_stepSCP (g : GlobalConfigValues) (bc : Nat) (s : Resource)
    (tm : TaskManager) (p : Task → Bool)
    (hp : ∀ i r, p ⟨i, .failIfResourceClusterDoesNotExists r⟩ = false) :
    ((stepSourceClusterPreTest g bc s tm).tasks).countP p = tm.tasks.countP p := by
  unfold stepSourceClusterPreTest
  split
  · rw [countP_add_task]
    simp [hp]
  · rfl

theorem countP_stepDTP (g : GlobalConfigValues) (bc br : Nat) (d : Resource)
    (tm : TaskManager) (p : Task → Bool)
    (hp : ∀ i r, p ⟨i, .failIfResourceClusterDoesNotExists r⟩ = false)
    (hq : ∀ i r, p ⟨i, .failIfResourceDoesNotExists r⟩ = false) :
    ((stepDestinationTablePreTest g bc br d tm).tasks).countP p = tm.tasks.countP p := by
  unfold stepDestinationTablePreTest
  split
  · split
    · rw [countP_add_task]
      simp [hp]
    · rw [countP_add_task]
      simp [hq]
  · rfl

theorem countP_stepSTP (g : GlobalConfigValues) (bc br : Nat) (s : Resource)
    (tm : TaskManager) (p : Task → Bool)
    (hq : ∀ i r, p ⟨i, .failIfResourceDoesNotExists r⟩ = false) :
    ((stepSourceTablePreTest g bc br s tm).tasks).countP p = tm.tasks.countP p := by
  unfold stepSourceTablePreTest
  split
  · rw [countP_add_task]
    simp [hq]
  · rfl

theorem countP_stepCT (g : GlobalConfigValues) (bc br : Nat) (s d : Resource)
    (tm : TaskManager) (p : Task → Bool)
    (hc : ∀ i a b, p ⟨i, .createIfTargetDoesNotExist a b⟩ = false) :
    ((stepCreateTarget g bc br s d tm).tasks).countP p = tm.tasks.countP p := by
  unfold stepCreateTarget
  split
  · rw [countP_add_task]
    simp [hc]
  · rfl

theorem countCreate_stepCT (g : GlobalConfigValues) (bc br : Nat) (s d : Resource)
    (tm : TaskManager) :
    countCreate (stepCreateTarget g bc br s d tm)
      = countCreate tm + (if g.destinationTableAutoCreate then 1 else 0) := by
  unfold stepCreateTarget countCreate
  split
  · rw [countP_add_task]
    simp_all [TaskKind.isCreate]
  · simp_all

theorem countP_stepTransfer (br : Nat) (s d : Resource) (tm : TaskManager)
    (p : Task → Bool)
    (hu : ∀ i r, p ⟨i, .unloadDataToS3 r⟩ = false)
    (hc : ∀ i r, p ⟨i, .copyDataFromS3 r⟩ = false)
    (hl : ∀ i, p ⟨i, .cleanupS3StagingArea⟩ = false) :
    ((stepTransfer br s d tm).tasks).countP p = tm.tasks.countP p := by
  rw [stepTransfer_tasks, List.countP_append]
  simp [List.countP_cons, hu, hc, hl]

theorem countUnload_stepTransfer (br : Nat) (s d : Resource) (tm : TaskManager) :
    countUnload (stepTransfer br s d tm) = countUnload tm + 1 := by
  unfold countUnload
  rw [stepTransfer_tasks, List.countP_append]
  simp [List.countP_cons, TaskKind.isUnload]

theorem countUnload_ATM (cfg : Config) (g : GlobalConfigValues) (st : ToolState)
    (s d : Resource) :
    countUnload (UnloadCopyTool.add_table_migration cfg g st s d).tm
      = countUnload st.tm + 1 := by
  unfold UnloadCopyTool.add_table_migration
  rw [countUnload_stepTransfer]
  unfold countUnload
  rw [countP_stepCT _ _ _ _ _ _ _ (fun i a b => rfl),
    countP_stepSTP _ _ _ _ _ _ (fun i r => rfl),
    countP_stepDTP _ _ _ _ _ _ (fun i r => rfl) (fun i r => rfl),
    countP_stepSCP _ _ _ _ _ (fun i r => rfl),
    countP_stepDCP _ _ _ _ _ (fun i r => rfl)]

theorem countNoOp_ATM (cfg : Config) (g : GlobalConfigValues) (st : ToolState)
    (s d : Resource) :
    countNoOp (UnloadCopyTool.add_table_migration cfg g st s d).tm
      = countNoOp st.tm := by
  unfold UnloadCopyTool.add_table_migration
  unfold countNoOp
  rw [countP_stepTransfer _ _ _ _ _ (fun i r => rfl) (fun i r => rfl) (fun i => rfl),
    countP_stepCT _ _ _ _ _ _ _ (fun i a b => rfl),
    countP_stepSTP _ _ _ _ _ _ (fun i r => rfl),
    countP_stepDTP _ _ _ _ _ _ (fun i r => rfl) (fun i r => rfl),
    countP_stepSCP _ _ _ _ _ (fun i r => rfl),
    countP_stepDCP _ _ _ _ _ (fun i r => rfl)]

theorem countCreate_ATM (cfg : Config) (g : GlobalConfigValues) (st : ToolState)
    (s d : Resource) :
    countCreate (UnloadCopyTool.add_table_migration cfg g st s d).tm
      = countCreate st.tm + (if g.destinationTableAutoCreate then 1 else 0) := by
  unfold UnloadCopyTool.add_table_migration
  have h1 : countCreate (stepTransfer st.barrierResource s (applyExplicitIds cfg d)
      (stepCreateTarget g st.barrierCluster st.barrierResource s (applyExplicitIds cfg d)
        (stepSourceTablePreTest g st.barrierCluster st.barrierResource s
          (stepDestinationTablePreTest g st.barrierCluster st.barrierResource
            (applyExplicitIds cfg d)
            (stepSourceClusterPreTest g st.barrierCluster s
              (stepDestinationClusterPreTest g st.barrierCluster
                (applyExplicitIds cfg d) st.tm))))))
      = countCreate (stepCreateTarget g st.barrierCluster st.barrierResource s
        (applyExplicitIds cfg d)
        (stepSourceTablePreTest g st.barrierCluster st.barrierResource s
          (stepDestinationTablePreTest g st.barrierCluster st.barrierResource
            (applyExplicitIds cfg d)
            (stepSourceClusterPreTest g st.barrierCluster s
              (stepDestinationClusterPreTest g st.barrierCluster
                (applyExplicitIds cfg d) st.tm))))) := by
    unfold countCreate
    rw [countP_stepTransfer _ _ _ _ _ (fun i r => rfl) (fun i r => rfl) (fun i => rfl)]
  rw [h1, countCreate_stepCT]
  unfold countCreate
  rw [countP_stepSTP _ _ _ _ _ _ (fun i r => rfl),
    countP_stepDTP _ _ _ _ _ _ (fun i r => rfl) (fun i r => rfl),
    countP_stepSCP _ _ _ _ _ (fun i r => rfl),
    countP_stepDCP _ _ _ _ _ (fun i r => rfl)]

/-- Fold a per-item count increment through a loop. -/
theorem foldl_addCount {α : Type} (m : ToolState → Nat) (w : α → Nat)
    (f : ToolState → α → ToolState)
    (hf : ∀ st a, m (f st a) = m st + w a) :
    ∀ (l : List α) (st : ToolState), m (l.foldl f st) = m st + (l.map w).sum := by
  intro l
  induction l with
  | nil => intro st; simp
  | cons a l ih =>
    intro st
    simp only [List.foldl_cons, List.map_cons, List.sum_cons]
    rw [ih (f st a), hf]
    omega

theorem countUnload_tableStep (cfg : Config) (g : GlobalConfigValues)
    (destination : Resource) (schemaName : String) (st : ToolState) (table : String) :
    countUnload (UnloadCopyTool.schema_migration_table_step cfg g destination
      schemaName st table).tm = countUnload st.tm + 1 := by
  unfold UnloadCopyTool.schema_migration_table_step
  exact countUnload_ATM ..

theorem countNoOp_tableStep (cfg : Config) (g : GlobalConfigValues)
    (destination : Resource) (schemaName : String) (st : ToolState) (table : String) :
    countNoOp (UnloadCopyTool.schema_migration_table_step cfg g destination
      schemaName st table).tm = countNoOp st.tm := by
  unfold UnloadCopyTool.schema_migration_table_step
  exact countNoOp_ATM ..

theorem countCreate_tableStep (cfg : Config) {g : GlobalConfigValues}
    (destination : Resource) (schemaName : String) (st : ToolState) (table : String)
    (hac : g.destinationTableAutoCreate = true) :
    countCreate (UnloadCopyTool.schema_migration_table_step cfg g destination
      schemaName st table).tm = countCreate st.tm + 1 := by
  unfold UnloadCopyTool.schema_migration_table_step
  rw [countCreate_ATM, hac]
  simp

theorem countUnload_ASM (cfg : Config) (g : GlobalConfigValues) (env : CatalogEnv)
    (st : ToolState) (s d : Resource) :
    countUnload (UnloadCopyTool.add_schema_migration cfg g env st s d).tm
      = countUnload st.tm + (env.list_tables s.get_schema).length := by
  unfold UnloadCopyTool.add_schema_migration
  have h := foldl_addCount (fun st => countUnload st.tm) (fun _ : String => 1)
    (UnloadCopyTool.schema_migration_table_step cfg g d s.get_schema)
    (fun st a => countUnload_tableStep ..) (env.list_tables s.get_schema) st
  simpa using h

theorem countUnload_ADM (cfg : Config) (g : GlobalConfigValues) (env : CatalogEnv)
    (st : ToolState) (s d : Resource) :
    countUnload (UnloadCopyTool.add_database_migration cfg g env st s d).tm
      = countUnload st.tm
        + (env.list_schemas.map (fun sch => (env.list_tables sch).length)).sum := by
  unfold UnloadCopyTool.add_database_migration
  have h := foldl_addCount (fun st => countUnload st.tm)
    (fun sch => (env.list_tables sch).length)
    (fun st schemaName => UnloadCopyTool.add_schema_migration cfg g env st
      ⟨s.get_cluster, .schemaKind schemaName, false⟩ d)
    (fun st a => by
      have h2 := countUnload_ASM cfg g env st ⟨s.get_cluster, .schemaKind a, false⟩ d
      simpa [Resource.get_schema] using h2)
    env.list_schemas st
  simpa using h

theorem countNoOp_ASM (cfg : Config) (g : GlobalConfigValues) (env : CatalogEnv)
    (st : ToolState) (s d : Resource) :
    countNoOp (UnloadCopyTool.add_schema_migration cfg g env st s d).tm
      = countNoOp st.tm := by
  unfold UnloadCopyTool.add_schema_migration
  have h := foldl_addCount (fun st => countNoOp st.tm) (fun _ : String => 0)
    (UnloadCopyTool.schema_migration_table_step cfg g d s.get_schema)
    (fun st a => by simpa using countNoOp_tableStep cfg g d s.get_schema st a)
    (env.list_tables s.get_schema) st
  simpa using h

theorem countNoOp_ADM (cfg : Config) (g : GlobalConfigValues) (env : CatalogEnv)
    (st : ToolState) (s d : Resource) :
    countNoOp (UnloadCopyTool.add_database_migration cfg g env st s d).tm
      = countNoOp st.tm := by
  unfold UnloadCopyTool.add_database_migration
  have h := foldl_addCount (fun st => countNoOp st.tm) (fun _ : String => 0)
    (fun st schemaName => UnloadCopyTool.add_schema_migration cfg g env st
      ⟨s.get_cluster, .schemaKind schemaName, false⟩ d)
    (fun st a => by
      simpa using countNoOp_ASM cfg g env st ⟨s.get_cluster, .schemaKind a, false⟩ d)
    env.list_schemas st
  simpa using h

theorem countCreate_ASM (cfg : Config) (g : GlobalConfigValues) (env : CatalogEnv)
    (st : ToolState) (s d : Resource) (hac : g.destinationTableAutoCreate = true) :
    countCreate (UnloadCopyTool.add_schema_migration cfg g env st s d).tm
      = countCreate st.tm + (env.list_tables s.get_schema).length := by
  unfold UnloadCopyTool.add_schema_migration
  have h := foldl_addCount (fun st => countCreate st.tm) (fun _ : String => 1)
    (UnloadCopyTool.schema_migration_table_step cfg g d s.get_schema)
    (fun st a => countCreate_tableStep cfg d s.get_schema st a hac)
    (env.list_tables s.get_schema) st
  simpa using h

theorem countCreate_ADM (cfg : Config) (g : GlobalConfigValues) (env : CatalogEnv)
    (st : ToolState) (s d : Resource) (hac : g.destinationTableAutoCreate = true) :
    countCreate (UnloadCopyTool.add_database_migration cfg g env st s d).tm
      = countCreate st.tm
        + (env.list_schemas.map (fun sch => (env.list_tables sch).length)).sum := by
  unfold UnloadCopyTool.add_database_migration
  have h := foldl_addCount (fun st => countCreate st.tm)
    (fun sch => (env.list_tables sch).length)
    (fun st schemaName => UnloadCopyTool.add_schema_migration cfg g env st
      ⟨s.get_cluster, .schemaKind schemaName, false⟩ d)
    (fun st a => by
      have h2 := countCreate_ASM cfg g env st ⟨s.get_cluster, .schemaKind a, false⟩ d hac
      simpa [Resource.get_schema] using h2)
    env.list_schemas st
  simpa using h

/-! ## Cluster connection objects used by the transfer tasks -/

/-- The identity of the cluster connection object a transfer task operates
on: the source cluster of an unload task, the destination cluster of a copy
task. -/
def transferCluster (t : Task) : Option Nat :=
  match t.kind with
  | .unloadDataToS3 r => some r.cluster
  | .copyDataFromS3 r => some r.cluster
  | _ => none

/-- All cluster connection objects used by unload and copy tasks, in task
order. -/
def transferClusters (tm : TaskManager) : List Nat :=
  tm.tasks.filterMap transferCluster

theorem transferClusters_add_task (tm : TaskManager) (k : TaskKind)
    (dOf ds : List Nat) :
    transferClusters (tm.add_task k dOf ds).1
      = transferClusters tm ++ (transferCluster ⟨tm.nextId, k⟩).toList := by
  unfold transferClusters
  rw [add_task_tasks, List.filterMap_append]
  rcases h : transferCluster ⟨tm.nextId, k⟩ with _ | c <;>
    simp [List.filterMap_cons, h]

theorem transferClusters_stepDCP (g : GlobalConfigValues) (bc : Nat) (d : Resource)
    (tm : TaskManager) :
    transferClusters (stepDestinationClusterPreTest g bc d tm) = transferClusters tm := by
  unfold stepDestinationClusterPreTest
  split
  · rw [transferClusters_add_task]
    simp [transferCluster]
  · rfl

theorem transferClusters_stepSCP (g : GlobalConfigValues) (bc : Nat) (s : Resource)
    (tm : TaskManager) :
    transferClusters (stepSourceClusterPreTest g bc s tm) = transferClusters tm := by
  unfold stepSourceClusterPreTest
  split
  · rw [transferClusters_add_task]
    simp [transferCluster]
  · rfl

theorem transferClusters_stepDTP (g : GlobalConfigValues) (bc br : Nat) (d : Resource)
    (tm : TaskManager) :
    transferClusters (stepDestinationTablePreTest g bc br d tm) = transferClusters tm := by
  unfold stepDestinationTablePreTest
  split
  · split
    · rw [transferClusters_add_task]
      simp [transferCluster]
    · rw [transferClusters_add_task]
      simp [transferCluster]
  · rfl

theorem transferClusters_stepSTP (g : GlobalConfigValues) (bc br : Nat) (s : Resource)
    (tm : TaskManager) :
    transferClusters (stepSourceTablePreTest g bc br s tm) = transferClusters tm := by
  unfold stepSourceTablePreTest
  split
  · rw [transferClusters_add_task]
    simp [transferCluster]
  · rfl

theorem transferClusters_stepCT (g : GlobalConfigValues) (bc br : Nat)
    (s d : Resource) (tm : TaskManager) :
    transferClusters (stepCreateTarget g bc br s d tm) = transferClusters tm := by
  unfold stepCreateTarget
  split
  · rw [transferClusters_add_task]
    simp [transferCluster]
  · rfl

theorem transferClusters_stepTransfer (br : Nat) (s d : Resource) (tm : TaskManager) :
    transferClusters (stepTransfer br s d tm)
      = transferClusters tm ++ [s.cluster, d.cluster] := by
  unfold transferClusters
  rw [stepTransfer_tasks, List.filterMap_append]
  simp [transferCluster]

theorem applyExplicitIds_cluster (cfg : Config) (d : Resource) :
    (applyExplicitIds cfg d).cluster = d.cluster := by
  unfold applyExplicitIds
  rcases cfg.copyTargetExplicitIds with _ | b
  · rfl
  · dsimp only
    split
    · rfl
    · rfl

theorem transferClusters_ATM (cfg : Config) (g : GlobalConfigValues)
    (st : ToolState) (s d : Resource) :
    transferClusters (UnloadCopyTool.add_table_migration cfg g st s d).tm
      = transferClusters st.tm ++ [s.cluster, d.cluster] := by
  unfold UnloadCopyTool.add_table_migration
  rw [transferClusters_stepTransfer, transferClusters_stepCT,
    transferClusters_stepSTP, transferClusters_stepDTP, transferClusters_stepSCP,
    transferClusters_stepDCP, applyExplicitIds_cluster]

theorem ATM_nextCluster (cfg : Config) (g : GlobalConfigValues) (st : ToolState)
    (s d : Resource) :
    (UnloadCopyTool.add_table_migration cfg g st s d).nextCluster
      = st.nextCluster := rfl

theorem tableStep_transferClusters (cfg : Config) (g : GlobalConfigValues)
    (destination : Resource) (schemaName : String) (st : ToolState) (table : String) :
    transferClusters (UnloadCopyTool.schema_migration_table_step cfg g destination
      schemaName st table).tm
      = transferClusters st.tm ++ [st.nextCluster, st.nextCluster + 1] := by
  unfold UnloadCopyTool.schema_migration_table_step
  rw [transferClusters_ATM]
  rfl

theorem tableStep_nextCluster (cfg : Config) (g : GlobalConfigValues)
    (destination : Resource) (schemaName : String) (st : ToolState) (table : String) :
    (UnloadCopyTool.schema_migration_table_step cfg g destination
      schemaName st table).nextCluster = st.nextCluster + 2 := rfl

/-- In a schema migration the transfer tasks of the per-table pipelines use
the freshly allocated cluster connection objects, two per table, in
allocation order. -/
theorem transferClusters_ASM (cfg : Config) (g : GlobalConfigValues)
    (env : CatalogEnv) (st : ToolState) (s d : Resource) :
    transferClusters (UnloadCopyTool.add_schema_migration cfg g env st s d).tm
      = transferClusters st.tm
        ++ List.range' st.nextCluster (2 * (env.list_tables s.get_schema).length) ∧
    (UnloadCopyTool.add_schema_migration cfg g env st s d).nextCluster
      = st.nextCluster + 2 * (env.list_tables s.get_schema).length := by
  unfold UnloadCopyTool.add_schema_migration
  generalize env.list_tables s.get_schema = l
  induction l generalizing st with
  | nil => simp
  | cons a l ih =>
    simp only [List.foldl_cons, List.length_cons]
    obtain ⟨ih1, ih2⟩ := ih (UnloadCopyTool.schema_migration_table_step cfg g d
      s.get_schema st a)
    constructor
    · rw [ih1, tableStep_transferClusters, tableStep_nextCluster]
      have harith : 2 * (l.length + 1) = (2 * l.length) + 1 + 1 := by omega
      rw [harith, List.range'_succ, List.range'_succ]
      simp
    · rw [ih2, tableStep_nextCluster]
      omega

/-! ## Facts about buildPipelines -/

theorem ATM_tm (cfg : Config) (g : GlobalConfigValues) (st : ToolState)
    (s d : Resource) :
    (UnloadCopyTool.add_table_migration cfg g st s d).tm
      = stepTransfer st.barrierResource s (applyExplicitIds cfg d)
          (stepCreateTarget g st.barrierCluster st.barrierResource s
            (applyExplicitIds cfg d)
            (stepSourceTablePreTest g st.barrierCluster st.barrierResource s
              (stepDestinationTablePreTest g st.barrierCluster st.barrierResource
                (applyExplicitIds cfg d)
                (stepSourceClusterPreTest g st.barrierCluster s
                  (stepDestinationClusterPreTest g st.barrierCluster
                    (applyExplicitIds cfg d) st.tm))))) := rfl

theorem prereqWired_tableStep (cfg : Config) (g : GlobalConfigValues)
    (destination : Resource) (schemaName : String) (st : ToolState) (table : String)
    (h : PrereqWired st.barrierCluster st.barrierResource st.tm) :
    PrereqWired st.barrierCluster st.barrierResource
      (UnloadCopyTool.schema_migration_table_step cfg g destination
        schemaName st table).tm := by
  unfold UnloadCopyTool.schema_migration_table_step
  exact prereqWired_ATM cfg g _ _ _ h

theorem prereqWired_ASM (cfg : Config) (g : GlobalConfigValues) (env : CatalogEnv)
    (st : ToolState) (s d : Resource)
    (h : PrereqWired st.barrierCluster st.barrierResource st.tm) :
    PrereqWired st.barrierCluster st.barrierResource
      (UnloadCopyTool.add_schema_migration cfg g env st s d).tm := by
  unfold UnloadCopyTool.add_schema_migration
  exact foldl_barrier_inv PrereqWired (tableStep_barrierCluster cfg g d s.get_schema)
    (tableStep_barrierResource cfg g d s.get_schema)
    (fun st a hst => prereqWired_tableStep cfg g d s.get_schema st a hst) _ st h

theorem prereqWired_ADM (cfg : Config) (g : GlobalConfigValues) (env : CatalogEnv)
    (st : ToolState) (s d : Resource)
    (h : PrereqWired st.barrierCluster st.barrierResource st.tm) :
    PrereqWired st.barrierCluster st.barrierResource
      (UnloadCopyTool.add_database_migration cfg g env st s d).tm := by
  unfold UnloadCopyTool.add_database_migration
  exact foldl_barrier_inv PrereqWired
    (fun st a => ASM_barrierCluster ..) (fun st a => ASM_barrierResource ..)
    (fun st a hst => prereqWired_ASM cfg g env st _ d hst) _ st h

theorem prereqWired_buildPipelines (cfg : Config) {g : GlobalConfigValues}
    (env : CatalogEnv) {st st' : ToolState} (src dst : Resource)
    (h : PrereqWired st.barrierCluster st.barrierResource st.tm)
    (hok : UnloadCopyTool.buildPipelines cfg g env st src dst = .ok st') :
    st'.barrierCluster = st.barrierCluster ∧ st'.barrierResource = st.barrierResource ∧
    PrereqWired st.barrierCluster st.barrierResource st'.tm := by
  unfold UnloadCopyTool.buildPipelines at hok
  split_ifs at hok
  all_goals simp only [Except.ok.injEq] at hok
  all_goals subst hok
  all_goals first
    | exact ⟨rfl, rfl, prereqWired_ATM cfg g st src _ h⟩
    | exact ⟨ASM_barrierCluster cfg g env st src dst,
        ASM_barrierResource cfg g env st src dst,
        prereqWired_ASM cfg g env st src dst h⟩
    | exact ⟨ADM_barrierCluster cfg g env st src dst,
        ADM_barrierResource cfg g env st src dst,
        prereqWired_ADM cfg g env st src dst h⟩

theorem countNoOp_buildPipelines {cfg : Config} {g : GlobalConfigValues}
    {env : CatalogEnv} {st st' : ToolState} {src dst : Resource}
    (hok : UnloadCopyTool.buildPipelines cfg g env st src dst = .ok st') :
    countNoOp st'.tm = countNoOp st.tm := by
  unfold UnloadCopyTool.buildPipelines at hok
  split_ifs at hok
  all_goals simp only [Except.ok.injEq] at hok
  all_goals subst hok
  all_goals first
    | exact countNoOp_ATM cfg g st src _
    | exact countNoOp_ASM cfg g env st src dst
    | exact countNoOp_ADM cfg g env st src dst

theorem tmExtends_buildPipelines {cfg : Config} {g : GlobalConfigValues}
    {env : CatalogEnv} {st st' : ToolState} {src dst : Resource}
    (hok : UnloadCopyTool.buildPipelines cfg g env st src dst = .ok st') :
    TMExtends st.tm st'.tm := by
  unfold UnloadCopyTool.buildPipelines at hok
  split_ifs at hok
  all_goals simp only [Except.ok.injEq] at hok
  all_goals subst hok
  all_goals first
    | exact tmExtends_ATM cfg g st src _
    | exact tmExtends_ASM cfg g env st src dst
    | exact tmExtends_ADM cfg g env st src dst

theorem isTable_kind {r : Resource} (h : r.isTableResource = true) :
    ∃ sc tb, r.kind = .tableKind sc tb := by
  rcases hk : r.kind with ⟨sc, tb⟩ | sc | _ | _
  · exact ⟨sc, tb, rfl⟩
  all_goals unfold Resource.isTableResource at h
  all_goals rw [hk] at h
  all_goals exact Bool.noConfusion h

theorem isSchemaOnly_kind {r : Resource} (ht : ¬r.isTableResource = true)
    (hs : r.isSchemaResource = true) : ∃ sc, r.kind = .schemaKind sc := by
  rcases hk : r.kind with ⟨sc, tb⟩ | sc | _ | _
  · exact absurd (by unfold Resource.isTableResource; rw [hk]) ht
  · exact ⟨sc, rfl⟩
  all_goals unfold Resource.isSchemaResource at hs
  all_goals rw [hk] at hs
  all_goals exact Bool.noConfusion hs

theorem isDBOnly_kind {r : Resource} (ht : ¬r.isTableResource = true)
    (hs : ¬r.isSchemaResource = true) (hd : r.isDBResource = true) :
    r.kind = .dbKind := by
  rcases hk : r.kind with ⟨sc, tb⟩ | sc | _ | _
  · exact absurd (by unfold Resource.isTableResource; rw [hk]) ht
  · exact absurd (by unfold Resource.isSchemaResource; rw [hk]) hs
  · rfl
  · unfold Resource.isDBResource at hd
    rw [hk] at hd
    exact Bool.noConfusion hd

/-- The number of unload tasks buildPipelines adds: one per table pipeline,
determined by the kind of the source resource. -/
theorem countUnload_buildPipelines {cfg : Config} {g : GlobalConfigValues}
    {env : CatalogEnv} {st st' : ToolState} {src dst : Resource}
    (hok : UnloadCopyTool.buildPipelines cfg g env st src dst = .ok st') :
    countUnload st'.tm = countUnload st.tm +
      (match src.kind with
       | .tableKind _ _ => 1
       | .schemaKind sc => (env.list_tables sc).length
       | .dbKind => (env.list_schemas.map (fun sch => (env.list_tables sch).length)).sum
       | .unsupportedKind => 0) := by
  unfold UnloadCopyTool.buildPipelines at hok
  split_ifs at hok
  all_goals simp only [Except.ok.injEq] at hok
  all_goals subst hok
  · rename_i hsrc hdb hdt
    obtain ⟨sc, tb, hk⟩ := isTable_kind hsrc
    rw [hk]
    exact countUnload_ATM cfg g st src _
  · rename_i hsrc hdb hdt
    obtain ⟨sc, tb, hk⟩ := isTable_kind hsrc
    rw [hk]
    exact countUnload_ATM cfg g st src _
  · rename_i hsrc hsch hdb
    obtain ⟨sc, hk⟩ := isSchemaOnly_kind hsrc hsch
    rw [hk]
    have h := countUnload_ASM cfg g env st src dst
    simp only [Resource.get_schema, hk] at h
    exact h
  · rename_i hsrc hsch hdbsrc hdb
    rw [isDBOnly_kind hsrc hsch hdbsrc]
    exact countUnload_ADM cfg g env st src dst

theorem countCreate_buildPipelines {cfg : Config} {g : GlobalConfigValues}
    {env : CatalogEnv} {st st' : ToolState} {src dst : Resource}
    (hac : g.destinationTableAutoCreate = true)
    (hok : UnloadCopyTool.buildPipelines cfg g env st src dst = .ok st') :
    countCreate st'.tm = countCreate st.tm +
      (match src.kind with
       | .tableKind _ _ => 1
       | .schemaKind sc => (env.list_tables sc).length
       | .dbKind => (env.list_schemas.map (fun sch => (env.list_tables sch).length)).sum
       | .unsupportedKind => 0) := by
  unfold UnloadCopyTool.buildPipelines at hok
  split_ifs at hok
  all_goals simp only [Except.ok.injEq] at hok
  all_goals subst hok
  · rename_i hsrc hdb hdt
    obtain ⟨sc, tb, hk⟩ := isTable_kind hsrc
    rw [hk, countCreate_ATM, hac]
    simp
  · rename_i hsrc hdb hdt
    obtain ⟨sc, tb, hk⟩ := isTable_kind hsrc
    rw [hk, countCreate_ATM, hac]
    simp
  · rename_i hsrc hsch hdb
    obtain ⟨sc, hk⟩ := isSchemaOnly_kind hsrc hsch
    rw [hk]
    have h := countCreate_ASM cfg g env st src dst hac
    simp only [Resource.get_schema, hk] at h
    exact h
  · rename_i hsrc hsch hdbsrc hdb
    rw [isDBOnly_kind hsrc hsch hdbsrc]
    exact countCreate_ADM cfg g env st src dst hac

/-! ## Concrete demonstration inputs -/

/-- A configuration migrating one table into a database target. -/
def demoConfig : Config :=
  ⟨⟨"unload"⟩, ⟨"copy"⟩, none, .tableKind "public" "orders", .dbKind⟩

def demoRead : String → Option Config := fun _ => some demoConfig

def demoS3 : String → S3Helper := fun r => ⟨r, fun _ => some demoConfig⟩

def demoEnv : CatalogEnv := ⟨["sch"], fun _ => ["t1", "t2"]⟩

/-- Only the connection pre-tests are enabled; no resource pre-test, no
auto-creation. -/
def gOnlyConnection : GlobalConfigValues := ⟨true, false, false, false, none⟩

/-- Only the source-table existence pre-test is enabled. -/
def gSrcPre : GlobalConfigValues := ⟨false, false, true, false, none⟩

/-- Every pre-test and the auto-creation are enabled. -/
def gAuto : GlobalConfigValues := ⟨true, true, true, true, none⟩

/-- A configuration migrating a whole schema, with explicit_ids set. -/
def demoSchemaConfig : Config :=
  ⟨⟨"unload"⟩, ⟨"copy"⟩, some true, .schemaKind "sch", .dbKind⟩

def demoSchemaRead : String → Option Config := fun _ => some demoSchemaConfig

/-- A configuration whose source resource is of no supported kind. -/
def demoBadConfig : Config :=
  ⟨⟨"unload"⟩, ⟨"copy"⟩, none, .unsupportedKind, .dbKind⟩

def demoBadRead : String → Option Config := fun _ => some demoBadConfig

def demoNoneRead : String → Option Config := fun _ => none

/-- Run the tool on the demo S3 helper and catalog with the given local
configuration and flags. -/
def demoRun (rd : String → Option Config) (g : GlobalConfigValues) :
    Except (String × ToolState) ToolState :=
  UnloadCopyTool.init rd demoS3 demoEnv "local.json" "us-east-1" g

def okStateOf : Except (String × ToolState) ToolState → ToolState
  | .ok st => st
  | .error e => e.2

def errOf : Except (String × ToolState) ToolState → String × ToolState
  | .error e => e
  | .ok st => ("", st)

def cexSource : Resource := ⟨0, .tableKind "public" "orders", false⟩

def cexDest : Resource := ⟨1, .tableKind "public" "orders", false⟩

/-- The full tool state produced by a single-table migration under
gOnlyConnection: the two barriers, the two cluster pre-tests (wired into
barrier 0 only), and the transfer chain hanging off barrier 1. -/
def cexState : ToolState :=
  ⟨⟨[⟨0, .noOperationTask⟩, ⟨1, .noOperationTask⟩,
     ⟨2, .failIfResourceClusterDoesNotExists cexDest⟩,
     ⟨3, .failIfResourceClusterDoesNotExists cexSource⟩,
     ⟨4, .unloadDataToS3 cexSource⟩,
     ⟨5, .copyDataFromS3 cexDest⟩,
     ⟨6, .cleanupS3StagingArea⟩],
    [(2, 0), (3, 0), (1, 4), (4, 5), (5, 6)], 7, [4]⟩, 2, 0, 1⟩

theorem cex_step3 : ∀ b, (3, b) ∈ cexState.tm.edges → b = 0 := by
  intro b hb
  simp only [cexState, List.mem_cons, List.not_mem_nil, or_false,
    Prod.mk.injEq] at hb
  rcases hb with ⟨h, h2⟩ | ⟨h, h2⟩ | ⟨h, h2⟩ | ⟨h, h2⟩ | ⟨h, h2⟩ <;> omega

theorem cex_step0 : ∀ b, ¬((0, b) ∈ cexState.tm.edges) := by
  intro b hb
  simp only [cexState, List.mem_cons, List.not_mem_nil, or_false,
    Prod.mk.injEq] at hb
  rcases hb with ⟨h, h2⟩ | ⟨h, h2⟩ | ⟨h, h2⟩ | ⟨h, h2⟩ | ⟨h, h2⟩ <;> omega

theorem cex_reach3 : ∀ b, Relation.TransGen (EdgeStep cexState.tm.edges) 3 b → b = 0 := by
  intro b h
  induction h with
  | single h => exact cex_step3 _ h
  | tail h1 h2 ih =>
    subst ih
    exact absurd h2 (cex_step0 _)

/-! ## The claims -/

/-- C1: every table migration built by add_table_migration wires the
pipeline-local transfer chain: among the tasks it adds there are an unload
task whose dependency is the resource-pre-test barrier, a copy task whose
dependency is the unload task, and a cleanup task whose dependency is the
copy task, so unload precedes copy precedes cleanup in the dependency
order. -/
theorem claim1_transfer_chain (cfg : Config) (g : GlobalConfigValues)
    (st : ToolState) (s d : Resource) :
    ∃ iu ic il,
      (⟨iu, .unloadDataToS3 s⟩ : Task)
        ∈ ((UnloadCopyTool.add_table_migration cfg g st s d).tm.tasks.drop
            st.tm.tasks.length) ∧
      (⟨ic, .copyDataFromS3 (applyExplicitIds cfg d)⟩ : Task)
        ∈ ((UnloadCopyTool.add_table_migration cfg g st s d).tm.tasks.drop
            st.tm.tasks.length) ∧
      (⟨il, .cleanupS3StagingArea⟩ : Task)
        ∈ ((UnloadCopyTool.add_table_migration cfg g st s d).tm.tasks.drop
            st.tm.tasks.length) ∧
      (st.barrierResource, iu) ∈ (UnloadCopyTool.add_table_migration cfg g st s d).tm.edges ∧
      (iu, ic) ∈ (UnloadCopyTool.add_table_migration cfg g st s d).tm.edges ∧
      (ic, il) ∈ (UnloadCopyTool.add_table_migration cfg g st s d).tm.edges ∧
      Reaches (UnloadCopyTool.add_table_migration cfg g st s d).tm.edges
        st.barrierResource ic ∧
      Reaches (UnloadCopyTool.add_table_migration cfg g st s d).tm.edges
        st.barrierResource il := by
  rw [ATM_tm]
  set tm5 := stepCreateTarget g st.barrierCluster st.barrierResource s
    (applyExplicitIds cfg d)
    (stepSourceTablePreTest g st.barrierCluster st.barrierResource s
      (stepDestinationTablePreTest g st.barrierCluster st.barrierResource
        (applyExplicitIds cfg d)
        (stepSourceClusterPreTest g st.barrierCluster s
          (stepDestinationClusterPreTest g st.barrierCluster
            (applyExplicitIds cfg d) st.tm)))) with htm5
  obtain ⟨δ, hδ⟩ := (((((tmExtends_stepDCP g st.barrierCluster
    (applyExplicitIds cfg d) st.tm).trans
    (tmExtends_stepSCP g st.barrierCluster s _)).trans
    (tmExtends_stepDTP g st.barrierCluster st.barrierResource
      (applyExplicitIds cfg d) _)).trans
    (tmExtends_stepSTP g st.barrierCluster st.barrierResource s _)).trans
    (tmExtends_stepCT g st.barrierCluster st.barrierResource s
      (applyExplicitIds cfg d) _)).tasksApp
  have htasks : (stepTransfer st.barrierResource s (applyExplicitIds cfg d) tm5).tasks.drop
      st.tm.tasks.length
      = δ ++ [⟨tm5.nextId, .unloadDataToS3 s⟩,
          ⟨tm5.nextId + 1, .copyDataFromS3 (applyExplicitIds cfg d)⟩,
          ⟨tm5.nextId + 2, .cleanupS3StagingArea⟩] := by
    rw [stepTransfer_tasks, hδ, List.append_assoc, List.drop_left]
  have he1 : (st.barrierResource, tm5.nextId)
      ∈ (stepTransfer st.barrierResource s (applyExplicitIds cfg d) tm5).edges := by
    rw [stepTransfer_edges]
    simp
  have he2 : (tm5.nextId, tm5.nextId + 1)
      ∈ (stepTransfer st.barrierResource s (applyExplicitIds cfg d) tm5).edges := by
    rw [stepTransfer_edges]
    simp
  have he3 : (tm5.nextId + 1, tm5.nextId + 2)
      ∈ (stepTransfer st.barrierResource s (applyExplicitIds cfg d) tm5).edges := by
    rw [stepTransfer_edges]
    simp
  refine ⟨tm5.nextId, tm5.nextId + 1, tm5.nextId + 2, ?_, ?_, ?_, he1, he2, he3,
    reaches_tail (reaches_single he1) he2,
    reaches_tail (reaches_tail (reaches_single he1) he2) he3⟩
  · rw [htasks]
    simp
  · rw [htasks]
    simp
  · rw [htasks]
    simp

/-- C2 is false as stated: when only connectionPreTest is enabled (no
destination or source table pre-test and no auto-creation), the cluster
pre-tests feed only barrier 0, no task bridges barrier 0 to barrier 1, and
the unload task (which waits on barrier 1 alone) is not ordered after the
cluster pre-tests: task 3 is a cluster-reachability pre-test, task 4 the
unload task of the same batch, and neither the resource-pre-test barrier
(handle 1) nor task 4 is reachable from task 3. -/
theorem claim2_counterexample :
    hasResourceStageTask gOnlyConnection = false ∧
    UnloadCopyTool.init demoRead demoS3 demoEnv "local.json" "us-east-1"
      gOnlyConnection = .ok cexState ∧
    (⟨3, .failIfResourceClusterDoesNotExists cexSource⟩ : Task) ∈ cexState.tm.tasks ∧
    TaskKind.isPrereq (.failIfResourceClusterDoesNotExists cexSource) = true ∧
    (⟨4, .unloadDataToS3 cexSource⟩ : Task) ∈ cexState.tm.tasks ∧
    TaskKind.isTransfer (.unloadDataToS3 cexSource) = true ∧
    cexState.barrierResource = 1 ∧
    ¬ Reaches cexState.tm.edges 3 cexState.barrierResource ∧
    ¬ Reaches cexState.tm.edges 3 4 := by
  refine ⟨rfl, by rfl, by decide, rfl, by decide, rfl, rfl, ?_, ?_⟩
  · intro h
    exact absurd (cex_reach3 _ h) one_ne_zero
  · intro h
    exact absurd (cex_reach3 _ h) (by decide)

/-- C2 (amended): whenever at least one resource-stage task is requested
(destinationTablePreTest, sourceTablePreTest or destinationTableAutoCreate
enabled), the build satisfies the claim: every preflight and creation task
in the batch — the cluster-reachability pre-tests included — is a transitive
predecessor of the shared resource-pre-test barrier, every unload/copy/
cleanup task is a (transitive) successor of that barrier, and hence no
transfer task of any pipeline is ordered before any preflight task of the
batch.  Without that proviso the original claim fails, see the
counterexample. -/
theorem claim2_amended (rd : String → Option Config) (mk : String → S3Helper)
    (env : CatalogEnv) (file reg : String) (g : GlobalConfigValues)
    (st : ToolState) (hg : hasResourceStageTask g = true)
    (hok : UnloadCopyTool.init rd mk env file reg g = .ok st) :
    (∀ q ∈ st.tm.tasks, q.kind.isPrereq = true →
      Reaches st.tm.edges q.id st.barrierResource) ∧
    (∀ p ∈ st.tm.tasks, p.kind.isTransfer = true →
      Reaches st.tm.edges st.barrierResource p.id) ∧
    (∀ q ∈ st.tm.tasks, q.kind.isPrereq = true →
      ∀ p ∈ st.tm.tasks, p.kind.isTransfer = true →
        Reaches st.tm.edges q.id p.id) := by
  obtain ⟨cfg, B, hc, hb, hst⟩ := init_ok_inv hok
  subst hst
  obtain ⟨hbc, hbr, hw, hd, hu⟩ := gateInvariant_buildPipelines cfg env _ _ hg
    gateInvariant_initialState hb
  refine ⟨?_, ?_, ?_⟩
  · intro q hq hp
    show Reaches B.tm.edges q.id B.barrierResource
    rw [hbr]
    exact hu q hq hp
  · intro p hp htr
    show Reaches B.tm.edges B.barrierResource p.id
    rw [hbr]
    exact hd p hp htr
  · intro q hq hp p hpp htr
    show Reaches B.tm.edges q.id p.id
    exact reaches_trans (hu q hq hp) (hd p hpp htr)

/-- Witness for C2 (amended) at a concrete single-table build with only the
source-table pre-test enabled. -/
theorem claim2_amended_witness :
    (∀ q ∈ (okStateOf (demoRun demoRead gSrcPre)).tm.tasks,
      q.kind.isPrereq = true →
      Reaches (okStateOf (demoRun demoRead gSrcPre)).tm.edges q.id
        (okStateOf (demoRun demoRead gSrcPre)).barrierResource) ∧
    (∀ p ∈ (okStateOf (demoRun demoRead gSrcPre)).tm.tasks,
      p.kind.isTransfer = true →
      Reaches (okStateOf (demoRun demoRead gSrcPre)).tm.edges
        (okStateOf (demoRun demoRead gSrcPre)).barrierResource p.id) ∧
    (∀ q ∈ (okStateOf (demoRun demoRead gSrcPre)).tm.tasks,
      q.kind.isPrereq = true →
      ∀ p ∈ (okStateOf (demoRun demoRead gSrcPre)).tm.tasks,
        p.kind.isTransfer = true →
        Reaches (okStateOf (demoRun demoRead gSrcPre)).tm.edges q.id p.id) :=
  claim2_amended demoRead demoS3 demoEnv "local.json" "us-east-1" gSrcPre
    (okStateOf (demoRun demoRead gSrcPre)) rfl (by rfl)

/-- C3: in every graph the tool builds, every cluster-reachability check
task is wired as a direct predecessor (dependency_of) of the shared
cluster-pre-test barrier, and every resource-existence check task as a
direct successor of that barrier (the barrier among its dependencies) and a
direct predecessor of the resource-pre-test barrier. -/
theorem claim3_pretest_wiring (rd : String → Option Config)
    (mk : String → S3Helper) (env : CatalogEnv) (file reg : String)
    (g : GlobalConfigValues) (st : ToolState)
    (hok : UnloadCopyTool.init rd mk env file reg g = .ok st) :
    ∀ t ∈ st.tm.tasks,
      (t.kind.isClusterPreTest = true →
        (t.id, st.barrierCluster) ∈ st.tm.edges) ∧
      (t.kind.isResourcePreTest = true →
        (st.barrierCluster, t.id) ∈ st.tm.edges ∧
        (t.id, st.barrierResource) ∈ st.tm.edges) := by
  obtain ⟨cfg, B, hc, hb, hst⟩ := init_ok_inv hok
  subst hst
  obtain ⟨hbc, hbr, hw⟩ := prereqWired_buildPipelines cfg env _ _
    gateInvariant_initialState.1 hb
  intro t ht
  obtain ⟨h1, h2, _⟩ := hw t ht
  constructor
  · intro hcp
    show (t.id, B.barrierCluster) ∈ B.tm.edges
    rw [hbc]
    exact h1 hcp
  · intro hrp
    constructor
    · show (B.barrierCluster, t.id) ∈ B.tm.edges
      rw [hbc]
      exact (h2 hrp).1
    · show (t.id, B.barrierResource) ∈ B.tm.edges
      rw [hbr]
      exact (h2 hrp).2

/-- Witness for C3 at the concrete single-table build under
gOnlyConnection: the source cluster pre-test (task 3) is wired into the
cluster-pre-test barrier. -/
theorem claim3_pretest_wiring_witness :
    (3, cexState.barrierCluster) ∈ cexState.tm.edges :=
  (claim3_pretest_wiring demoRead demoS3 demoEnv "local.json" "us-east-1"
    gOnlyConnection cexState (by rfl)
    ⟨3, .failIfResourceClusterDoesNotExists cexSource⟩ (by decide)).1 rfl

/-- The number of tables the configured migration enumerates for a source
resource of the given kind: one for a table source, one per table listed by
the schema for a schema source, one per table of every listed schema for a
database source. -/
def pipelineCountForKind (env : CatalogEnv) : ResourceKind → Nat
  | .tableKind _ _ => 1
  | .schemaKind sc => (env.list_tables sc).length
  | .dbKind => (env.list_schemas.map (fun sch => (env.list_tables sch).length)).sum
  | .unsupportedKind => 0

/-- The number of per-table pipelines the configuration describes. -/
def expectedTableCount (cfg : Config) (env : CatalogEnv) : Nat :=
  pipelineCountForKind env cfg.sourceKind

/-- C4: the five-stage pipeline is instantiated exactly once per table - the
built graph holds exactly one unload task per table enumerated by the
configured source: one for a table-level migration, one per listed table for
a schema-level migration, and one per listed table of every listed schema
for a database-level migration. -/
theorem claim4_pipeline_count (rd : String → Option Config)
    (mk : String → S3Helper) (env : CatalogEnv) (file reg : String)
    (g : GlobalConfigValues) (cfg : Config) (st : ToolState)
    (hc : configHelperInit rd file (some (mk reg)) = .ok cfg)
    (hok : UnloadCopyTool.init rd mk env file reg g = .ok st) :
    countUnload st.tm = expectedTableCount cfg env := by
  obtain ⟨cfg', B, hc', hb, hst⟩ := init_ok_inv hok
  rw [hc] at hc'
  simp only [Except.ok.injEq] at hc'
  subst hc'
  subst hst
  show countUnload B.tm = expectedTableCount cfg env
  rw [countUnload_buildPipelines hb]
  exact Nat.zero_add _

/-- Witness for C4: a schema migration over a schema with two tables builds
exactly two pipelines. -/
theorem claim4_pipeline_count_witness :
    countUnload (okStateOf (demoRun demoSchemaRead gAuto)).tm
      = expectedTableCount demoSchemaConfig demoEnv :=
  claim4_pipeline_count demoSchemaRead demoS3 demoEnv "local.json" "us-east-1"
    gAuto demoSchemaConfig (okStateOf (demoRun demoSchemaRead gAuto))
    (by rfl) (by rfl)

/-- C5: for every configuration that builds successfully, the executor is
invoked exactly once, after all pipelines have been added, with the constant
concurrency bound max_threads = 4, independent of how many tables or
pipelines were merged into the graph. -/
theorem claim5_run_once (rd : String → Option Config) (mk : String → S3Helper)
    (env : CatalogEnv) (file reg : String) (g : GlobalConfigValues)
    (st : ToolState)
    (hok : UnloadCopyTool.init rd mk env file reg g = .ok st) :
    st.tm.runs = [4] := by
  obtain ⟨cfg, B, hc, hb, hst⟩ := init_ok_inv hok
  subst hst
  have hr := (tmExtends_buildPipelines hb).runsEq
  show (B.tm.run 4).runs = [4]
  rw [run_runs, hr]
  rfl

/-- Witness for C5 at the two-table schema build. -/
theorem claim5_run_once_witness :
    (okStateOf (demoRun demoSchemaRead gAuto)).tm.runs = [4] :=
  claim5_run_once demoSchemaRead demoS3 demoEnv "local.json" "us-east-1" gAuto
    (okStateOf (demoRun demoSchemaRead gAuto)) (by rfl)

/-- C6: every configuration/build error raised by the constructor — a failed
configuration load or an unsupported source/destination combination
(NotImplementedError) — is raised strictly before task_manager.run is
invoked: the task manager state carried by the error records no executor
invocation. -/
theorem claim6_error_before_run (rd : String → Option Config)
    (mk : String → S3Helper) (env : CatalogEnv) (file reg : String)
    (g : GlobalConfigValues) (e : String × ToolState)
    (he : UnloadCopyTool.init rd mk env file reg g = .error e) :
    e.2.tm.runs = [] := by
  rcases init_error_inv he with ⟨msg, hc, he2⟩ | ⟨cfg, hc, hbp⟩
  · rw [he2]
    rfl
  · rw [buildPipelines_error hbp]
    rfl

/-- Witness for C6: a source resource of unsupported kind raises before any
run. -/
theorem claim6_error_before_run_witness :
    (errOf (demoRun demoBadRead gAuto)).2.tm.runs = [] :=
  claim6_error_before_run demoBadRead demoS3 demoEnv "local.json" "us-east-1"
    gAuto (errOf (demoRun demoBadRead gAuto)) (by rfl)

/-- C7: with destinationTableAutoCreate enabled, exactly one creation task
is added per table, each wired with the cluster-pre-test barrier as its
dependency and as a dependency_of the resource-pre-test barrier; hence every
creation task is ordered after every cluster-reachability check and before
every unload/copy/cleanup task of the batch. -/
theorem claim7_create_task (rd : String → Option Config)
    (mk : String → S3Helper) (env : CatalogEnv) (file reg : String)
    (g : GlobalConfigValues) (cfg : Config) (st : ToolState)
    (hac : g.destinationTableAutoCreate = true)
    (hc : configHelperInit rd file (some (mk reg)) = .ok cfg)
    (hok : UnloadCopyTool.init rd mk env file reg g = .ok st) :
    countCreate st.tm = expectedTableCount cfg env ∧
    (∀ t ∈ st.tm.tasks, t.kind.isCreate = true →
      (st.barrierCluster, t.id) ∈ st.tm.edges ∧
      (t.id, st.barrierResource) ∈ st.tm.edges) ∧
    (∀ q ∈ st.tm.tasks, q.kind.isClusterPreTest = true →
      ∀ t ∈ st.tm.tasks, t.kind.isCreate = true →
        Reaches st.tm.edges q.id t.id) ∧
    (∀ t ∈ st.tm.tasks, t.kind.isCreate = true →
      ∀ p ∈ st.tm.tasks, p.kind.isTransfer = true →
        Reaches st.tm.edges t.id p.id) := by
  obtain ⟨cfg', B, hc', hb, hst⟩ := init_ok_inv hok
  rw [hc] at hc'
  simp only [Except.ok.injEq] at hc'
  subst hc'
  subst hst
  have hg : hasResourceStageTask g = true := by
    simp [hasResourceStageTask, hac]
  obtain ⟨hbc, hbr, hw, hd, hu⟩ := gateInvariant_buildPipelines cfg env _ _ hg
    gateInvariant_initialState hb
  refine ⟨?_, ?_, ?_, ?_⟩
  · show countCreate B.tm = expectedTableCount cfg env
    rw [countCreate_buildPipelines hac hb]
    exact Nat.zero_add _
  · intro t ht hcr
    have h := (hw t ht).2.2 hcr
    constructor
    · show (B.barrierCluster, t.id) ∈ B.tm.edges
      rw [hbc]
      exact h.1
    · show (t.id, B.barrierResource) ∈ B.tm.edges
      rw [hbr]
      exact h.2
  · intro q hq hcp t ht hcr
    have h1 := (hw q hq).1 hcp
    have h2 := ((hw t ht).2.2 hcr).1
    exact reaches_tail (reaches_single h1) h2
  · intro t ht hcr p hp htr
    have h1 := ((hw t ht).2.2 hcr).2
    exact reaches_trans (reaches_single h1) (hd p hp htr)

/-- Witness for C7 at the two-table schema build with auto-creation on. -/
theorem claim7_create_task_witness :
    countCreate (okStateOf (demoRun demoSchemaRead gAuto)).tm
      = expectedTableCount demoSchemaConfig demoEnv ∧
    (∀ t ∈ (okStateOf (demoRun demoSchemaRead gAuto)).tm.tasks,
      t.kind.isCreate = true →
      ((okStateOf (demoRun demoSchemaRead gAuto)).barrierCluster, t.id)
        ∈ (okStateOf (demoRun demoSchemaRead gAuto)).tm.edges ∧
      (t.id, (okStateOf (demoRun demoSchemaRead gAuto)).barrierResource)
        ∈ (okStateOf (demoRun demoSchemaRead gAuto)).tm.edges) ∧
    (∀ q ∈ (okStateOf (demoRun demoSchemaRead gAuto)).tm.tasks,
      q.kind.isClusterPreTest = true →
      ∀ t ∈ (okStateOf (demoRun demoSchemaRead gAuto)).tm.tasks,
        t.kind.isCreate = true →
        Reaches (okStateOf (demoRun demoSchemaRead gAuto)).tm.edges q.id t.id) ∧
    (∀ t ∈ (okStateOf (demoRun demoSchemaRead gAuto)).tm.tasks,
      t.kind.isCreate = true →
      ∀ p ∈ (okStateOf (demoRun demoSchemaRead gAuto)).tm.tasks,
        p.kind.isTransfer = true →
        Reaches (okStateOf (demoRun demoSchemaRead gAuto)).tm.edges t.id p.id) :=
  claim7_create_task demoSchemaRead demoS3 demoEnv "local.json" "us-east-1"
    gAuto demoSchemaConfig (okStateOf (demoRun demoSchemaRead gAuto))
    rfl (by rfl) (by rfl)

/-- C8: the builder creates exactly two barrier nodes, both no-op tasks,
adds them to the shared task manager before any pipeline task (they are the
first two tasks, with handles 0 and 1), and every pipeline built afterwards
shares these same two instances, since the barrier fields of the tool state
stay 0 and 1. -/
theorem claim8_two_barriers (rd : String → Option Config)
    (mk : String → S3Helper) (env : CatalogEnv) (file reg : String)
    (g : GlobalConfigValues) (st : ToolState)
    (hok : UnloadCopyTool.init rd mk env file reg g = .ok st) :
    countNoOp st.tm = 2 ∧
    (∃ Δ, st.tm.tasks
      = [⟨0, .noOperationTask⟩, ⟨1, .noOperationTask⟩] ++ Δ) ∧
    st.barrierCluster = 0 ∧ st.barrierResource = 1 := by
  obtain ⟨cfg, B, hc, hb, hst⟩ := init_ok_inv hok
  subst hst
  obtain ⟨hbc, hbr, _⟩ := prereqWired_buildPipelines cfg env _ _
    gateInvariant_initialState.1 hb
  refine ⟨?_, ?_, ?_, ?_⟩
  · show countNoOp B.tm = 2
    rw [countNoOp_buildPipelines hb]
    rfl
  · obtain ⟨δ, hδ⟩ := (tmExtends_buildPipelines hb).tasksApp
    exact ⟨δ, hδ⟩
  · exact hbc
  · exact hbr

/-- Witness for C8 at the two-table schema build. -/
theorem claim8_two_barriers_witness :
    countNoOp (okStateOf (demoRun demoSchemaRead gAuto)).tm = 2 ∧
    (∃ Δ, (okStateOf (demoRun demoSchemaRead gAuto)).tm.tasks
      = [⟨0, .noOperationTask⟩, ⟨1, .noOperationTask⟩] ++ Δ) ∧
    (okStateOf (demoRun demoSchemaRead gAuto)).barrierCluster = 0 ∧
    (okStateOf (demoRun demoSchemaRead gAuto)).barrierResource = 1 :=
  claim8_two_barriers demoSchemaRead demoS3 demoEnv "local.json" "us-east-1"
    gAuto (okStateOf (demoRun demoSchemaRead gAuto)) (by rfl)

/-- C9: ConfigHelper raises when the configuration path is an S3 URI and no
S3 helper is available, loads through the helper when one is, parses the
local file as JSON for every other path, and UnloadCopyTool reports a
configuration-load failure with an empty task world: no task and no cluster
connection has been constructed, and no run has started. -/
theorem claim9_config_loading :
    (∀ rd path, strStartsWith path "s3://" = true →
      configHelperInit rd path none
        = .error "No region set to get config file but it resides on S3") ∧
    (∀ rd path h, strStartsWith path "s3://" = true →
      configHelperInit rd path (some h)
        = (match h.getJsonConfigAsDict path with
           | some c => .ok c
           | none => .error "failed to load configuration from S3")) ∧
    (∀ rd path s3h, strStartsWith path "s3://" = false →
      configHelperInit rd path s3h
        = (match rd path with
           | some c => .ok c
           | none => .error "failed to read local configuration file as JSON")) ∧
    (∀ rd mk env file reg g msg,
      configHelperInit rd file (some (mk reg)) = .error msg →
      UnloadCopyTool.init rd mk env file reg g
        = .error (msg, ⟨TaskManager.empty, 0, 0, 0⟩)) := by
  refine ⟨?_, ?_, ?_, ?_⟩
  · intro rd path hp
    unfold configHelperInit
    rw [if_pos hp]
  · intro rd path h hp
    unfold configHelperInit
    rw [if_pos hp]
  · intro rd path s3h hp
    unfold configHelperInit
    rw [if_neg (by simp [hp])]
  · intro rd mk env file reg g msg hc
    unfold UnloadCopyTool.init
    rw [hc]

/-- Witness for C9: the S3-path-without-helper error and a failed local load
surfacing from the constructor with the empty task world. -/
theorem claim9_config_loading_witness :
    configHelperInit demoRead "s3://bucket/cfg.json" none
      = .error "No region set to get config file but it resides on S3" ∧
    UnloadCopyTool.init demoNoneRead demoS3 demoEnv "local.json" "us-east-1"
      gAuto = .error ("failed to read local configuration file as JSON",
        ⟨TaskManager.empty, 0, 0, 0⟩) :=
  ⟨claim9_config_loading.1 demoRead "s3://bucket/cfg.json" (by rfl),
   claim9_config_loading.2.2.2 demoNoneRead demoS3 demoEnv "local.json"
     "us-east-1" gAuto "failed to read local configuration file as JSON" (by rfl)⟩

/-- C10: a schema-level migration allocates a fresh source cluster
connection object and a fresh destination cluster connection object for
every table: the clusters used by the unload and copy tasks it adds are
exactly the freshly allocated ones (two per table, in order), they are
pairwise distinct, and all distinct from every previously allocated
cluster. -/
theorem claim10_fresh_clusters (cfg : Config) (g : GlobalConfigValues)
    (env : CatalogEnv) (st : ToolState) (s d : Resource) :
    transferClusters (UnloadCopyTool.add_schema_migration cfg g env st s d).tm
      = transferClusters st.tm
        ++ List.range' st.nextCluster (2 * (env.list_tables s.get_schema).length) ∧
    (List.range' st.nextCluster
      (2 * (env.list_tables s.get_schema).length)).Nodup ∧
    (∀ c ∈ List.range' st.nextCluster (2 * (env.list_tables s.get_schema).length),
      st.nextCluster ≤ c) ∧
    (UnloadCopyTool.add_schema_migration cfg g env st s d).nextCluster
      = st.nextCluster + 2 * (env.list_tables s.get_schema).length := by
  obtain ⟨h1, h2⟩ := transferClusters_ASM cfg g env st s d
  refine ⟨h1, List.nodup_range' _ _, ?_, h2⟩
  intro c hc
  rw [List.mem_range'] at hc
  obtain ⟨i, hi, rfl⟩ := hc
  omega

end RedshiftUnloadCopy
